import Mathlib

/-!
# SudoVDA: identity record generator and monitor registry

A shallow embedding of `edid.h` (`generate_edid`) and of the core of `Driver.cpp`:
the registry (`IndirectDeviceContext::CreateMonitor`, `DisconnectAllMonitors`,
`IddSampleIoDeviceControl`), the watchdog (`RunWatchdog`), the frame pump
(`SwapChainProcessor::RunCore`), the identity-record parsers
(`IddSampleParseMonitorDescription`, `IddSampleParseMonitorDescription2`,
`IddSampleMonitorGetDefaultModes`) and the target-mode queries
(`IddSampleMonitorQueryModes`, `IddSampleMonitorQueryModes2`), with theorems about
them.

Conventions.  Bytes and machine words are natural numbers; a store into a byte
buffer reduces the stored value modulo 256, 32-bit arithmetic is reduced
modulo 2^32.  A byte buffer is a `List Nat`.  A C string argument is the list
of bytes found behind the pointer (`strlen` stops at the first zero byte, or
at the end of the list, where the terminator sits).
-/

namespace SudoVDA

/-! ## edid.h -/

/-- The macro `EDID_OFFSET_SERIAL`. -/
def EDID_OFFSET_SERIAL : Nat := 0x0C

/-- The macro `EDID_OFFSET_SERIALSTR`. -/
def EDID_OFFSET_SERIALSTR : Nat := 0x5F

/-- The macro `EDID_OFFSET_PRODNAME`. -/
def EDID_OFFSET_PRODNAME : Nat := 0x71

/-- The macro `EDID_STRING_FIELD_SIZE`. -/
def EDID_STRING_FIELD_SIZE : Nat := 13

/-- The template record `edid_base`. -/
def edid_base : List Nat := [
  0x00, 0xff, 0xff, 0xff, 0xff, 0xff, 0xff, 0x00, 0x4d, 0xab, 0xb6, 0xa5, 0xef, 0x2d, 0xbc, 0x1a,
  0xff, 0x22, 0x01, 0x04, 0xb5, 0x32, 0x1f, 0x78, 0x1f, 0xee, 0x95, 0xa3, 0x54, 0x4c, 0x99, 0x26,
  0x0f, 0x50, 0x54, 0x00, 0x00, 0x00, 0x01, 0x01, 0x01, 0x01, 0x01, 0x01, 0x01, 0x01, 0x01, 0x01,
  0x01, 0x01, 0x01, 0x01, 0x01, 0x01, 0x02, 0x3a, 0x80, 0x18, 0x71, 0x38, 0x2d, 0x40, 0x58, 0x2c,
  0x45, 0x00, 0x63, 0xc8, 0x10, 0x00, 0x00, 0x06, 0x00, 0x00, 0x00, 0xfd, 0x00, 0x17, 0xf0, 0x0f,
  0xff, 0x37, 0x00, 0x0a, 0x20, 0x20, 0x20, 0x20, 0x20, 0x20, 0x00, 0x00, 0x00, 0xff, 0x00, 0x31,
  0x32, 0x33, 0x34, 0x35, 0x36, 0x37, 0x38, 0x39, 0x41, 0x42, 0x43, 0x44, 0x00, 0x00, 0x00, 0xfc,
  0x00, 0x53, 0x75, 0x64, 0x6f, 0x56, 0x44, 0x41, 0x20, 0x44, 0x49, 0x53, 0x50, 0x0a, 0x00, 0xfd]

/-- The value of `sizeof(edid_base)`. -/
def sizeof_edid_base : Nat := edid_base.length

/-- C `strlen`: the number of bytes before the first zero byte. -/
def strlen (s : List Nat) : Nat :=
  (s.takeWhile (fun c => c % 256 != 0)).length

/-- C `memset(dst + off, v, n)`: `n` byte stores of `v`, lowest address first. -/
def memset : List Nat → Nat → Nat → Nat → List Nat
  | dst, _, _, 0 => dst
  | dst, off, v, n + 1 => (memset dst off v n).set (off + n) (v % 256)

/-- C `memcpy(dst + off, src, n)`: `n` byte stores, lowest address first. -/
def memcpy : List Nat → Nat → List Nat → Nat → List Nat
  | dst, _, _, 0 => dst
  | dst, off, src, n + 1 => (memcpy dst off src n).set (off + n) (src.getD n 0 % 256)

/-- The four bytes of a `uint32_t` object in memory (little-endian host). -/
def uint32_bytes (x : Nat) : List Nat :=
  [x % 4294967296 % 256, x % 4294967296 / 256 % 256,
   x % 4294967296 / 65536 % 256, x % 4294967296 / 16777216 % 256]

/-- One text field of `generate_edid`: the body of `if (serial_str) { ... }`
(and of `if (prod_name) { ... }`) for the field at offset `off`. -/
def write_text_field (edid_data : List Nat) (off : Nat) : Option (List Nat) → List Nat
  | none => edid_data
  | some str =>
    let pn_len := strlen str
    if pn_len != 0 then
      let pn_len := if pn_len > EDID_STRING_FIELD_SIZE then EDID_STRING_FIELD_SIZE else pn_len
      let pn_pad := EDID_STRING_FIELD_SIZE - pn_len
      let edid_data := memcpy edid_data off str pn_len
      let edid_data := memset edid_data (off + pn_len) 0x20 pn_pad
      if pn_pad > 0 then
        let edid_data := edid_data.set (off + pn_len) 0x0A
        let pn_pad := pn_pad - 1
        let pn_len := pn_len + 1
        if pn_pad != 0 then memset edid_data (off + pn_len) 0x20 pn_pad else edid_data
      else
        if pn_pad != 0 then memset edid_data (off + pn_len) 0x20 pn_pad else edid_data
    else edid_data

/-- The checksum loop of `generate_edid`: `sum += edid_data[i]` for
`i = 0 .. n - 1` in 32-bit unsigned arithmetic. -/
def checksum_loop (edid_data : List Nat) : Nat → Nat
  | 0 => 0
  | n + 1 => (checksum_loop edid_data n + edid_data.getD n 0) % 4294967296

/-- The function `generate_edid` on the path where `malloc` succeeded: the
contents of the freshly allocated buffer that is returned. -/
def generate_edid_fresh (serial : Nat) (serial_str prod_name : Option (List Nat)) : List Nat :=
  let edid_data := memcpy (List.replicate sizeof_edid_base 0) 0 edid_base sizeof_edid_base
  let edid_data := memcpy edid_data EDID_OFFSET_SERIAL (uint32_bytes serial) 4
  let edid_data := write_text_field edid_data EDID_OFFSET_SERIALSTR serial_str
  let edid_data := write_text_field edid_data EDID_OFFSET_PRODNAME prod_name
  let sum := checksum_loop edid_data (sizeof_edid_base - 1)
  let checksum := (256 - sum % 256) % 256
  edid_data.set (sizeof_edid_base - 1) checksum

/-- A pointer to an identity record: whether it is the address of the static
template `edid_base`, and the 128 bytes found behind it. -/
structure EdidPtr where
  isTemplate : Bool
  bytes : List Nat
  deriving DecidableEq

/-- The function `generate_edid`; `mallocOk` is the outcome of `malloc`.  On
failure the template itself is returned. -/
def generate_edid (mallocOk : Bool) (serial : Nat) (serial_str prod_name : Option (List Nat)) :
    EdidPtr :=
  if !mallocOk then
    { isTemplate := true, bytes := edid_base }
  else
    { isTemplate := false, bytes := generate_edid_fresh serial serial_str prod_name }

/-- The 13 bytes of the text field at offset `off` of a record. -/
def text_field (edid_data : List Nat) (off : Nat) : List Nat :=
  (edid_data.drop off).take EDID_STRING_FIELD_SIZE


/-! ## Driver.cpp: globals, monitor creation, watchdog, device control -/

/-- The Windows type `GUID`. -/
structure GUID where
  Data1 : Nat
  Data2 : Nat
  Data3 : Nat
  Data4 : List Nat
  deriving DecidableEq

/-- Modelled from the spec: the struct `VirtualMonitorMode` of `Driver.h` (not under
src/): width, height and refresh rate, as initialised in `s_DefaultModes` and read
as `Width`, `Height`, `VSync`. -/
structure VirtualMonitorMode where
  Width : Nat
  Height : Nat
  VSync : Nat
  deriving DecidableEq

/-- Modelled from the spec: the class `IndirectMonitorContext` of `Driver.h` (not
under src/), with the data members that `CreateMonitor` assigns and the registry
reads: identity, connector slot, identity record, preferred mode and the
adapter/target identifiers.  `m_Monitor` is the host's monitor object;
`adapterLuid` and `targetId` are `none` until the host acknowledges the arrival.
The adapter handle `m_Adapter` and the processing thread are left out. -/
structure IndirectMonitorContext where
  m_Monitor : Nat
  monitorGuid : GUID
  connectorId : Nat
  pEdidData : EdidPtr
  preferredMode : VirtualMonitorMode
  adapterLuid : Option Nat
  targetId : Option Nat
  deriving DecidableEq

/-- The constant `IDD_SAMPLE_MONITOR_COUNT`. -/
def IDD_SAMPLE_MONITOR_COUNT : Nat := 10

/-- The global variables of `Driver.cpp` that make up the registry and the
watchdog: `freeConnectorSlots` (a `std::queue`: the front is the head of the list,
`push` appends), `monitorCtxList`, `watchdogTimeout`, `watchdogCountdown`. -/
structure DriverState where
  freeConnectorSlots : List Nat
  monitorCtxList : List IndirectMonitorContext
  watchdogTimeout : Nat
  watchdogCountdown : Nat
  deriving DecidableEq

/-- An `NTSTATUS` value, a signed 32-bit integer. -/
abbrev NTSTATUS := Int

/-- The macro `NT_SUCCESS`. -/
def NT_SUCCESS (Status : NTSTATUS) : Bool := decide (0 ≤ Status)

/-- The status code `STATUS_SUCCESS` (0x00000000). -/
def STATUS_SUCCESS : NTSTATUS := 0

/-- The status code `STATUS_INVALID_DEVICE_REQUEST` (0xC0000010). -/
def STATUS_INVALID_DEVICE_REQUEST : NTSTATUS := 0xC0000010 - 4294967296

/-- The status code `STATUS_TOO_MANY_NODES` (0xC000020E). -/
def STATUS_TOO_MANY_NODES : NTSTATUS := 0xC000020E - 4294967296

/-- The status code `STATUS_BUFFER_TOO_SMALL` (0xC0000023). -/
def STATUS_BUFFER_TOO_SMALL : NTSTATUS := 0xC0000023 - 4294967296

/-- The status code `STATUS_INVALID_PARAMETER` (0xC000000D). -/
def STATUS_INVALID_PARAMETER : NTSTATUS := 0xC000000D - 4294967296

/-- The status code `STATUS_NOT_FOUND` (0xC0000225). -/
def STATUS_NOT_FOUND : NTSTATUS := 0xC0000225 - 4294967296

/-- The values of the globals at program start. -/
def globals0 : DriverState :=
  { freeConnectorSlots := [], monitorCtxList := [], watchdogTimeout := 3, watchdogCountdown := 0 }

/-- The watchdog part of `LoadSettings`: `watchdog` is the registry value, when the
query succeeds. -/
def LoadSettings (s : DriverState) (watchdog : Option Nat) : DriverState :=
  match watchdog with
  | some _watchdogTimeout => { s with watchdogTimeout := _watchdogTimeout % 4294967296 }
  | none => s

/-- The function `DisconnectAllMonitors`.  The departure signal sent to the host
for each monitor has no effect on the globals. -/
def DisconnectAllMonitors (s : DriverState) : DriverState :=
  if s.monitorCtxList.isEmpty then s
  else
    { s with
      freeConnectorSlots :=
        s.monitorCtxList.foldl (fun q ctx => q ++ [ctx.connectorId]) s.freeConnectorSlots
      monitorCtxList := [] }

/-- The part of `RunWatchdog` that runs in the calling thread. -/
def RunWatchdog (s : DriverState) : DriverState :=
  if s.watchdogTimeout != 0 then { s with watchdogCountdown := s.watchdogTimeout } else s

/-- One iteration of the loop of the watchdog thread, after its sleep; the second
component tells whether the thread goes on.  The countdown is only decremented
when it is not zero. -/
def watchdogIteration (s : DriverState) : DriverState × Bool :=
  if s.watchdogTimeout != 0 then
    if s.watchdogCountdown == 0 || s.monitorCtxList.isEmpty then (s, true)
    else
      let s := { s with watchdogCountdown := s.watchdogCountdown - 1 }
      if s.watchdogCountdown == 0 then (DisconnectAllMonitors s, true) else (s, true)
  else (DisconnectAllMonitors s, false)

/-- The constructor `IndirectDeviceContext::IndirectDeviceContext`: it pushes
0 .. `IDD_SAMPLE_MONITOR_COUNT - 1` onto `freeConnectorSlots`. -/
def IndirectDeviceContext_ctor (s : DriverState) : DriverState :=
  { s with freeConnectorSlots := s.freeConnectorSlots ++ List.range IDD_SAMPLE_MONITOR_COUNT }

/-- What the host answers during one control request: the two buffer retrievals,
`malloc`, `IddCxMonitorCreate` (status and monitor object) and
`IddCxMonitorArrival` (status, adapter LUID, target id). -/
structure HostOutcome where
  inputBufferStatus : NTSTATUS
  outputBufferStatus : NTSTATUS
  mallocOk : Bool
  monitorCreateStatus : NTSTATUS
  MonitorObject : Nat
  monitorArrivalStatus : NTSTATUS
  OsAdapterLuid : Nat
  OsTargetId : Nat
  deriving DecidableEq

/-- The result of `CreateMonitor`: the globals, the returned status, the context
stored in `pMonitorContext` and the buffers passed to `free`. -/
structure CreateMonitorResult where
  state : DriverState
  Status : NTSTATUS
  pMonitorContext : Option IndirectMonitorContext
  freed : List EdidPtr
  deriving DecidableEq

/-- The method `IndirectDeviceContext::CreateMonitor`.  The constructor of
`IndirectMonitorContext` appends the new context to `monitorCtxList`. -/
def CreateMonitor (s : DriverState) (edidData : EdidPtr) (containerId : GUID)
    (preferredMode : VirtualMonitorMode) (h : HostOutcome) : CreateMonitorResult :=
  let ConnectorIndex := s.freeConnectorSlots.headD 0 % 4294967296
  let Status := h.monitorCreateStatus
  if NT_SUCCESS Status then
    let freeConnectorSlots := s.freeConnectorSlots.tail
    let Status := h.monitorArrivalStatus
    let pMonitorContext : IndirectMonitorContext :=
      { m_Monitor := h.MonitorObject
        monitorGuid := containerId
        connectorId := ConnectorIndex
        pEdidData := edidData
        preferredMode := preferredMode
        adapterLuid := if NT_SUCCESS Status then some h.OsAdapterLuid else none
        targetId := if NT_SUCCESS Status then some h.OsTargetId else none }
    { state :=
        { s with
          freeConnectorSlots := freeConnectorSlots
          monitorCtxList := s.monitorCtxList ++ [pMonitorContext] }
      Status := Status
      pMonitorContext := some pMonitorContext
      freed := [] }
  else
    { state := s, Status := Status, pMonitorContext := none, freed := [edidData] }

/-- Modelled from the spec: the struct `VIRTUAL_DISPLAY_PARAMS` of `vdd_ioctl.h`
(not under src/), with the members the handler reads: AddDisplay(guid,
serialNumber, deviceName, width, height, refreshRate). -/
structure VIRTUAL_DISPLAY_PARAMS where
  Width : Nat
  Height : Nat
  RefreshRate : Nat
  MonitorGuid : GUID
  DeviceName : List Nat
  SerialNumber : List Nat
  deriving DecidableEq

/-- Modelled from the spec: the struct `VIRTUAL_DISPLAY_REMOVE_PARAMS` of
`vdd_ioctl.h` (not under src/): RemoveDisplay(guid). -/
structure VIRTUAL_DISPLAY_REMOVE_PARAMS where
  MonitorGuid : GUID
  deriving DecidableEq

/-- The sizes `sizeof(VIRTUAL_DISPLAY_PARAMS)`, `sizeof(VIRTUAL_DISPLAY_OUTPUT)` and
`sizeof(VIRTUAL_DISPLAY_REMOVE_PARAMS)` of `vdd_ioctl.h` (not under src/), taken as
parameters. -/
structure IoctlSizes where
  sizeof_VIRTUAL_DISPLAY_PARAMS : Nat
  sizeof_VIRTUAL_DISPLAY_OUTPUT : Nat
  sizeof_VIRTUAL_DISPLAY_REMOVE_PARAMS : Nat
  deriving DecidableEq

/-- The control code of a request with the contents of its input buffer: the three
codes of `vdd_ioctl.h` the `switch` distinguishes, and any other code. -/
inductive IoControl where
  | IOCTL_ADD_VIRTUAL_DISPLAY (params : VIRTUAL_DISPLAY_PARAMS)
  | IOCTL_REMOVE_VIRTUAL_DISPLAY (params : VIRTUAL_DISPLAY_REMOVE_PARAMS)
  | IOCTL_DRIVER_PING
  | other (code : Nat)
  deriving DecidableEq

/-- The arguments of `IddSampleIoDeviceControl`. -/
structure IoRequest where
  IoControlCode : IoControl
  InputBufferLength : Nat
  OutputBufferLength : Nat
  deriving DecidableEq

/-- What the handler hands back: the arguments of
`WdfRequestCompleteWithInformation`, the `AdapterLuid` and `TargetId` written to the
output buffer, and the buffers passed to `free`. -/
structure IoCompletion where
  Status : NTSTATUS
  bytesReturned : Nat
  output : Option (Option Nat × Option Nat)
  freed : List EdidPtr
  deriving DecidableEq

/-- A completion that wrote no output. -/
def completeWith (Status : NTSTATUS) : IoCompletion :=
  { Status := Status, bytesReturned := 0, output := none, freed := [] }

/-- The loop of the `IOCTL_REMOVE_VIRTUAL_DISPLAY` case over `monitorCtxList`: at the
first context whose `monitorGuid` equals `g` it yields that context's
`connectorId` and the list with this entry erased; `none` when no context matches. -/
def removeLoop (g : GUID) : List IndirectMonitorContext → Option (Nat × List IndirectMonitorContext)
  | [] => none
  | ctx :: rest =>
    if ctx.monitorGuid = g then some (ctx.connectorId, rest)
    else
      match removeLoop g rest with
      | some (id, rest') => some (id, ctx :: rest')
      | none => none

/-- The function `IddSampleIoDeviceControl`. -/
def IddSampleIoDeviceControl (sz : IoctlSizes) (s : DriverState) (req : IoRequest)
    (h : HostOutcome) : DriverState × IoCompletion :=
  let s := { s with watchdogCountdown := s.watchdogTimeout }
  match req.IoControlCode with
  | .IOCTL_ADD_VIRTUAL_DISPLAY params =>
    if s.freeConnectorSlots.isEmpty then (s, completeWith STATUS_TOO_MANY_NODES)
    else if req.InputBufferLength < sz.sizeof_VIRTUAL_DISPLAY_PARAMS
        || req.OutputBufferLength < sz.sizeof_VIRTUAL_DISPLAY_OUTPUT then
      (s, completeWith STATUS_BUFFER_TOO_SMALL)
    else if !NT_SUCCESS h.inputBufferStatus then (s, completeWith h.inputBufferStatus)
    else if !NT_SUCCESS h.outputBufferStatus then (s, completeWith h.outputBufferStatus)
    else if params.Width > 0 && params.Height > 0 && params.RefreshRate > 0 then
      let edidData := generate_edid h.mallocOk params.MonitorGuid.Data1
        (some params.SerialNumber) (some params.DeviceName)
      let r := CreateMonitor s edidData params.MonitorGuid
        { Width := params.Width, Height := params.Height, VSync := params.RefreshRate } h
      (r.state,
        if !NT_SUCCESS r.Status then
          { Status := r.Status, bytesReturned := 0, output := none, freed := r.freed }
        else
          { Status := r.Status
            bytesReturned := sz.sizeof_VIRTUAL_DISPLAY_OUTPUT
            output := r.pMonitorContext.map (fun ctx => (ctx.adapterLuid, ctx.targetId))
            freed := r.freed })
    else (s, completeWith STATUS_INVALID_PARAMETER)
  | .IOCTL_REMOVE_VIRTUAL_DISPLAY params =>
    if req.InputBufferLength < sz.sizeof_VIRTUAL_DISPLAY_REMOVE_PARAMS then
      (s, completeWith STATUS_BUFFER_TOO_SMALL)
    else if !NT_SUCCESS h.inputBufferStatus then (s, completeWith h.inputBufferStatus)
    else
      match removeLoop params.MonitorGuid s.monitorCtxList with
      | some (connectorId, rest) =>
        ({ s with
            freeConnectorSlots := s.freeConnectorSlots ++ [connectorId]
            monitorCtxList := rest },
          completeWith STATUS_SUCCESS)
      | none => (s, completeWith STATUS_NOT_FOUND)
  | .IOCTL_DRIVER_PING => (s, completeWith STATUS_SUCCESS)
  | .other _ => (s, completeWith STATUS_INVALID_DEVICE_REQUEST)

/-- The events that change the registry: a control request with the host's answers,
a call of `DisconnectAllMonitors`, and an iteration of the watchdog loop. -/
inductive Event where
  | ioctl (req : IoRequest) (h : HostOutcome)
  | disconnectAll
  | tick
  deriving DecidableEq

/-- The effect of one event on the globals. -/
def step (sz : IoctlSizes) (s : DriverState) : Event → DriverState
  | .ioctl req h => (IddSampleIoDeviceControl sz s req h).1
  | .disconnectAll => DisconnectAllMonitors s
  | .tick => (watchdogIteration s).1

/-- The effect of a sequence of events. -/
def run (sz : IoctlSizes) (s : DriverState) (es : List Event) : DriverState :=
  es.foldl (step sz) s

/-- The state once `DriverEntry` has loaded the settings and started the watchdog
and one device context has been constructed: the pool holds 0 .. 9 and no monitor
is registered. -/
def initialState (watchdog : Option Nat) : DriverState :=
  IndirectDeviceContext_ctor (RunWatchdog (LoadSettings globals0 watchdog))

/-- The connector slots held by the registered monitors, in table order. -/
def heldSlots (s : DriverState) : List Nat :=
  s.monitorCtxList.map (fun ctx => ctx.connectorId)

/-- Whether a control code is `IOCTL_ADD_VIRTUAL_DISPLAY`. -/
def isAddDisplay : IoControl → Bool
  | .IOCTL_ADD_VIRTUAL_DISPLAY _ => true
  | _ => false

/-- A sequence of control requests, handled one after the other from state `s`,
consists of AddDisplay requests that all complete with a success status. -/
def addsAllSucceed (sz : IoctlSizes) (s : DriverState) : List (IoRequest × HostOutcome) → Bool
  | [] => true
  | (req, h) :: rest =>
    isAddDisplay req.IoControlCode
      && NT_SUCCESS (IddSampleIoDeviceControl sz s req h).2.Status
      && addsAllSucceed sz (IddSampleIoDeviceControl sz s req h).1 rest

/-- The state after a sequence of control requests. -/
def runRequests (sz : IoctlSizes) (s : DriverState) (reqs : List (IoRequest × HostOutcome)) :
    DriverState :=
  run sz s (reqs.map (fun r => Event.ioctl r.1 r.2))

/-- Sample structure sizes for the examples. -/
def sampleSizes : IoctlSizes :=
  { sizeof_VIRTUAL_DISPLAY_PARAMS := 56
    sizeof_VIRTUAL_DISPLAY_OUTPUT := 12
    sizeof_VIRTUAL_DISPLAY_REMOVE_PARAMS := 16 }

/-- Sample identities for the examples. -/
def sampleGuid (n : Nat) : GUID :=
  { Data1 := n, Data2 := 0, Data3 := 0, Data4 := [0, 0, 0, 0, 0, 0, 0, 0] }

/-- A host that answers every call with `STATUS_SUCCESS` and hands out the monitor
object `m`. -/
def sampleHost (m : Nat) : HostOutcome :=
  { inputBufferStatus := STATUS_SUCCESS
    outputBufferStatus := STATUS_SUCCESS
    mallocOk := true
    monitorCreateStatus := STATUS_SUCCESS
    MonitorObject := m
    monitorArrivalStatus := STATUS_SUCCESS
    OsAdapterLuid := 1
    OsTargetId := m }

/-- An AddDisplay request for identity `g` with the given width, 1080 lines at 60 Hz. -/
def sampleAdd (g : GUID) (Width : Nat) : IoRequest :=
  { IoControlCode := .IOCTL_ADD_VIRTUAL_DISPLAY
      { Width := Width, Height := 1080, RefreshRate := 60, MonitorGuid := g,
        DeviceName := [83, 117, 100, 111], SerialNumber := [83, 78, 49] }
    InputBufferLength := 56
    OutputBufferLength := 12 }

/-- A RemoveDisplay request for identity `g`. -/
def sampleRemove (g : GUID) : IoRequest :=
  { IoControlCode := .IOCTL_REMOVE_VIRTUAL_DISPLAY { MonitorGuid := g }
    InputBufferLength := 16
    OutputBufferLength := 0 }

/-- Ten AddDisplay requests for the identities 0 .. 9, each answered with success. -/
def sampleTenAdds : List (IoRequest × HostOutcome) :=
  (List.range 10).map (fun i => (sampleAdd (sampleGuid i) 1920, sampleHost i))

/-! ### The watchdog over several iterations -/

/-- The number of calls of `DisconnectAllMonitors` that one iteration of the loop of
the watchdog thread makes: the branches of `watchdogIteration`, with the calls
counted. -/
def watchdogIterationCalls (s : DriverState) : Nat :=
  if s.watchdogTimeout != 0 then
    if s.watchdogCountdown == 0 || s.monitorCtxList.isEmpty then 0
    else
      let s := { s with watchdogCountdown := s.watchdogCountdown - 1 }
      if s.watchdogCountdown == 0 then 1 else 0
  else 1

/-- The globals after `n` iterations of the watchdog loop with nothing in between. -/
def watchdogTicks : Nat → DriverState → DriverState
  | 0, s => s
  | n + 1, s => watchdogTicks n (watchdogIteration s).1

/-- The number of calls of `DisconnectAllMonitors` made during `n` iterations of the
watchdog loop with nothing in between. -/
def watchdogTicksCalls : Nat → DriverState → Nat
  | 0, _ => 0
  | n + 1, s => watchdogIterationCalls s + watchdogTicksCalls n (watchdogIteration s).1

/-- A Ping request. -/
def samplePing : IoRequest :=
  { IoControlCode := .IOCTL_DRIVER_PING, InputBufferLength := 0, OutputBufferLength := 0 }

/-! ### Destruction of a monitor context -/

/-- The destructor `IndirectMonitorContext::~IndirectMonitorContext`: the buffers it
passes to `free`.  A context built by `CreateMonitor` has a non-null `pEdidData`;
the comparison `pEdidData != edid_base` is one of addresses. -/
def IndirectMonitorContext_dtor (ctx : IndirectMonitorContext) : List EdidPtr :=
  if ctx.pEdidData.isTemplate != true then [ctx.pEdidData] else []

/-- A host on which `malloc` fails and `IddCxMonitorCreate` fails with `Status`. -/
def sampleHostOutOfMemory (Status : NTSTATUS) : HostOutcome :=
  { inputBufferStatus := STATUS_SUCCESS
    outputBufferStatus := STATUS_SUCCESS
    mallocOk := false
    monitorCreateStatus := Status
    MonitorObject := 0
    monitorArrivalStatus := STATUS_SUCCESS
    OsAdapterLuid := 0
    OsTargetId := 0 }

/-! ### The swap-chain processor (frame pump) -/

/-- An `HRESULT` value, a signed 32-bit integer. -/
abbrev HRESULT := Int

/-- The macro `SUCCEEDED`. -/
def SUCCEEDED (hr : HRESULT) : Bool := decide (0 ≤ hr)

/-- The macro `FAILED`. -/
def FAILED (hr : HRESULT) : Bool := decide (hr < 0)

/-- The code `E_PENDING` (0x8000000A). -/
def E_PENDING : HRESULT := 0x8000000A - 4294967296

/-- The wait result `WAIT_OBJECT_0`. -/
def WAIT_OBJECT_0 : Nat := 0

/-- The wait result `WAIT_TIMEOUT` (258). -/
def WAIT_TIMEOUT : Nat := 258

/-- What the host answers during one iteration of the loop of `RunCore`: the result
and surface of `IddCxSwapChainReleaseAndAcquireBuffer` (or its variant 2), the
result of `WaitForMultipleObjects`, and the result of
`IddCxSwapChainFinishedProcessingFrame`. -/
structure PumpHost where
  acquireHr : HRESULT
  pSurface : Nat
  WaitResult : Nat
  finishedHr : HRESULT
  deriving DecidableEq

/-- The calls that an iteration of the loop of `RunCore` makes, in order: the buffer
request (which of the two variants), the wait on the two events with its timeout,
taking over the reference on the surface (`AcquiredBuffer.Attach`), releasing it
(`AcquiredBuffer.Reset`), and the finished-processing notification. -/
inductive PumpCall where
  | ReleaseAndAcquireBuffer2
  | ReleaseAndAcquireBuffer
  | WaitForMultipleObjects (timeout : Nat)
  | Attach (pSurface : Nat)
  | Reset (pSurface : Nat)
  | FinishedProcessingFrame
  deriving DecidableEq

/-- One iteration of the `for (;;)` loop of `SwapChainProcessor::RunCore`: whether the
loop goes on (`continue` or the end of the body) or is left (`break`), and the calls
made.  `buffer2` is `IDD_IS_FUNCTION_AVAILABLE(IddCxSwapChainReleaseAndAcquireBuffer2)`. -/
def RunCoreIteration (buffer2 : Bool) (h : PumpHost) : Bool × List PumpCall :=
  let acquire := if buffer2 then PumpCall.ReleaseAndAcquireBuffer2
    else PumpCall.ReleaseAndAcquireBuffer
  let hr := h.acquireHr
  if hr = E_PENDING then
    let WaitResult := h.WaitResult
    if WaitResult = WAIT_OBJECT_0 ∨ WaitResult = WAIT_TIMEOUT then
      (true, [acquire, .WaitForMultipleObjects 16])
    else if WaitResult = WAIT_OBJECT_0 + 1 then
      (false, [acquire, .WaitForMultipleObjects 16])
    else
      (false, [acquire, .WaitForMultipleObjects 16])
  else if SUCCEEDED hr then
    let hr := h.finishedHr
    if FAILED hr then
      (false, [acquire, .Attach h.pSurface, .Reset h.pSurface, .FinishedProcessingFrame])
    else
      (true, [acquire, .Attach h.pSurface, .Reset h.pSurface, .FinishedProcessingFrame])
  else
    (false, [acquire])

/-- The outcome of a run of `RunCore` against a finite sequence of host answers: the
number of loop iterations started, the calls made inside the loop, and whether the
function has returned (it has not when the answers ran out with the loop still
going). -/
structure RunCoreResult where
  iterations : Nat
  calls : List PumpCall
  returned : Bool
  deriving DecidableEq

/-- The `for (;;)` loop of `RunCore`, one host answer per iteration. -/
def RunCoreLoop (buffer2 : Bool) : List PumpHost → RunCoreResult
  | [] => { iterations := 0, calls := [], returned := false }
  | h :: rest =>
    if (RunCoreIteration buffer2 h).1 then
      { iterations := (RunCoreLoop buffer2 rest).iterations + 1
        calls := (RunCoreIteration buffer2 h).2 ++ (RunCoreLoop buffer2 rest).calls
        returned := (RunCoreLoop buffer2 rest).returned }
    else
      { iterations := 1, calls := (RunCoreIteration buffer2 h).2, returned := true }

/-- The method `SwapChainProcessor::RunCore`: `asHr` is the result of
`m_Device->Device.As(&DxgiDevice)`, `setDeviceHr` that of `IddCxSwapChainSetDevice`. -/
def RunCore (buffer2 : Bool) (asHr setDeviceHr : HRESULT) (answers : List PumpHost) :
    RunCoreResult :=
  if FAILED asHr then { iterations := 0, calls := [], returned := true }
  else if FAILED setDeviceHr then { iterations := 0, calls := [], returned := true }
  else RunCoreLoop buffer2 answers

/-! ### Monitor modes and the identity-record parser -/

/-- The table `s_DefaultModes`. -/
def s_DefaultModes : List VirtualMonitorMode := [
  ⟨800, 600, 30⟩, ⟨800, 600, 60⟩, ⟨800, 600, 90⟩, ⟨800, 600, 120⟩, ⟨800, 600, 144⟩, ⟨800, 600, 165⟩, ⟨800, 600, 180⟩, ⟨800, 600, 240⟩,
  ⟨1280, 720, 30⟩, ⟨1280, 720, 60⟩, ⟨1280, 720, 90⟩, ⟨1280, 720, 130⟩, ⟨1280, 720, 144⟩, ⟨1280, 720, 165⟩, ⟨1280, 720, 180⟩,
  ⟨1366, 768, 30⟩, ⟨1366, 768, 60⟩, ⟨1366, 768, 90⟩, ⟨1366, 768, 120⟩, ⟨1366, 768, 144⟩, ⟨1366, 768, 165⟩, ⟨1366, 768, 180⟩, ⟨1366, 768, 240⟩,
  ⟨1920, 1080, 30⟩, ⟨1920, 1080, 60⟩, ⟨1920, 1080, 90⟩, ⟨1920, 1080, 120⟩, ⟨1920, 1080, 144⟩, ⟨1920, 1080, 165⟩, ⟨1920, 1080, 180⟩, ⟨1920, 1080, 240⟩,
  ⟨2560, 1440, 30⟩, ⟨2560, 1440, 60⟩, ⟨2560, 1440, 90⟩, ⟨2560, 1440, 120⟩, ⟨2560, 1440, 144⟩, ⟨2560, 1440, 165⟩, ⟨2560, 1440, 180⟩, ⟨2560, 1440, 240⟩,
  ⟨3840, 2160, 30⟩, ⟨3840, 2160, 60⟩, ⟨3840, 2160, 90⟩, ⟨3840, 2160, 120⟩, ⟨3840, 2160, 144⟩, ⟨3840, 2160, 165⟩, ⟨3840, 2160, 180⟩, ⟨3840, 2160, 240⟩]

/-- The enumeration `IDDCX_MONITOR_MODE_ORIGIN` of the host's headers. -/
inductive IDDCX_MONITOR_MODE_ORIGIN where
  | UNINITIALIZED
  | MONITORDESCRIPTOR
  | DRIVER
  deriving DecidableEq

/-- The members of `DISPLAYCONFIG_VIDEO_SIGNAL_INFO` that `FillSignalInfo` sets. -/
structure DISPLAYCONFIG_VIDEO_SIGNAL_INFO where
  totalSize_cx : Nat
  totalSize_cy : Nat
  activeSize_cx : Nat
  activeSize_cy : Nat
  vSyncFreqDivider : Nat
  videoStandard : Nat
  vSyncFreq_Numerator : Nat
  vSyncFreq_Denominator : Nat
  hSyncFreq_Numerator : Nat
  hSyncFreq_Denominator : Nat
  scanLineOrdering : Nat
  pixelRate : Nat
  deriving DecidableEq

/-- The constant `DISPLAYCONFIG_SCANLINE_ORDERING_PROGRESSIVE`. -/
def DISPLAYCONFIG_SCANLINE_ORDERING_PROGRESSIVE : Nat := 1

/-- The function `FillSignalInfo`; the product for `hSyncFreq` is one of 32-bit
values, the one for `pixelRate` one of 64-bit values. -/
def FillSignalInfo (Width Height VSync : Nat) (bMonitorMode : Bool) :
    DISPLAYCONFIG_VIDEO_SIGNAL_INFO :=
  { totalSize_cx := Width
    totalSize_cy := Height
    activeSize_cx := Width
    activeSize_cy := Height
    vSyncFreqDivider := if bMonitorMode then 0 else 1
    videoStandard := 255
    vSyncFreq_Numerator := VSync
    vSyncFreq_Denominator := 1
    hSyncFreq_Numerator := VSync * Height % 4294967296
    hSyncFreq_Denominator := 1
    scanLineOrdering := DISPLAYCONFIG_SCANLINE_ORDERING_PROGRESSIVE
    pixelRate := VSync * Width * Height % 18446744073709551616 }

/-- The struct `IDDCX_MONITOR_MODE`, without its `Size` member. -/
structure IDDCX_MONITOR_MODE where
  Origin : IDDCX_MONITOR_MODE_ORIGIN
  MonitorVideoSignalInfo : DISPLAYCONFIG_VIDEO_SIGNAL_INFO
  deriving DecidableEq

/-- The function `CreateIddCxMonitorMode`. -/
def CreateIddCxMonitorMode (Width Height VSync : Nat) (Origin : IDDCX_MONITOR_MODE_ORIGIN) :
    IDDCX_MONITOR_MODE :=
  { Origin := Origin, MonitorVideoSignalInfo := FillSignalInfo Width Height VSync true }

/-- The width, height and refresh rate that a monitor mode reports. -/
def modeTriple (m : IDDCX_MONITOR_MODE) : Nat × Nat × Nat :=
  (m.MonitorVideoSignalInfo.activeSize_cx, m.MonitorVideoSignalInfo.activeSize_cy,
    m.MonitorVideoSignalInfo.vSyncFreq_Numerator)

/-- The width, height and refresh rate of a `VirtualMonitorMode`. -/
def virtualModeTriple (m : VirtualMonitorMode) : Nat × Nat × Nat :=
  (m.Width, m.Height, m.VSync)

/-- C `memcmp` over the first `n` bytes, compared as unsigned bytes. -/
def memcmp : List Nat → List Nat → Nat → Int
  | _, _, 0 => 0
  | a, b, n + 1 =>
    if a.headD 0 < b.headD 0 then -1
    else if a.headD 0 > b.headD 0 then 1
    else memcmp a.tail b.tail n

/-- The loop of `IddSampleParseMonitorDescription` over `monitorCtxList`: it carries
`MonitorModeBufferOutputCount` and `pPreferredMode`, and stops at the first context
whose identity record equals the queried one over `sizeof(edid_base)` bytes. -/
def parseLoop (pData : List Nat) :
    List IndirectMonitorContext → Nat × Option VirtualMonitorMode →
      Nat × Option VirtualMonitorMode
  | [], acc => acc
  | it :: rest, (count, pPreferredMode) =>
    if memcmp pData it.pEdidData.bytes sizeof_edid_base = 0 then
      if it.preferredMode.Width != 0 then (count + 1, some it.preferredMode)
      else (count, pPreferredMode)
    else parseLoop pData rest (count, pPreferredMode)

/-- What `IddSampleParseMonitorDescription` hands back: the status, the two members
of `pOutArgs` (`none` when not assigned), and the entries written to
`pInArgs->pMonitorModes`, from index 0 on. -/
structure ParseMonitorDescriptionResult where
  Status : NTSTATUS
  MonitorModeBufferOutputCount : Option Nat
  PreferredMonitorModeIdx : Option Nat
  pMonitorModes : List IDDCX_MONITOR_MODE
  deriving DecidableEq

/-- The function `IddSampleParseMonitorDescription`; `DataSize` and `pData` are those
of `pInArgs->MonitorDescription`. -/
def IddSampleParseMonitorDescription (s : DriverState) (DataSize : Nat) (pData : List Nat)
    (MonitorModeBufferInputCount : Nat) : ParseMonitorDescriptionResult :=
  if DataSize != sizeof_edid_base then
    { Status := STATUS_INVALID_PARAMETER, MonitorModeBufferOutputCount := none,
      PreferredMonitorModeIdx := none, pMonitorModes := [] }
  else
    let r := parseLoop pData s.monitorCtxList (s_DefaultModes.length, none)
    let MonitorModeBufferOutputCount := r.1
    let pPreferredMode := r.2
    if MonitorModeBufferInputCount < MonitorModeBufferOutputCount then
      { Status := if MonitorModeBufferInputCount > 0 then STATUS_BUFFER_TOO_SMALL
          else STATUS_SUCCESS
        MonitorModeBufferOutputCount := some MonitorModeBufferOutputCount
        PreferredMonitorModeIdx := none
        pMonitorModes := [] }
    else
      let pMonitorModes := s_DefaultModes.map (fun m =>
        CreateIddCxMonitorMode m.Width m.Height m.VSync .MONITORDESCRIPTOR)
      match pPreferredMode with
      | some preferred =>
        if preferred.Width != 0 then
          { Status := STATUS_SUCCESS
            MonitorModeBufferOutputCount := some MonitorModeBufferOutputCount
            PreferredMonitorModeIdx := some s_DefaultModes.length
            pMonitorModes := pMonitorModes ++
              [CreateIddCxMonitorMode preferred.Width preferred.Height preferred.VSync
                .MONITORDESCRIPTOR] }
        else
          { Status := STATUS_SUCCESS
            MonitorModeBufferOutputCount := some MonitorModeBufferOutputCount
            PreferredMonitorModeIdx := some 1
            pMonitorModes := pMonitorModes }
      | none =>
        { Status := STATUS_SUCCESS
          MonitorModeBufferOutputCount := some MonitorModeBufferOutputCount
          PreferredMonitorModeIdx := some 1
          pMonitorModes := pMonitorModes }

/-- What `IddSampleMonitorGetDefaultModes` hands back. -/
structure GetDefaultModesResult where
  Status : NTSTATUS
  DefaultMonitorModeBufferOutputCount : Nat
  PreferredMonitorModeIdx : Nat
  pDefaultMonitorModes : List IDDCX_MONITOR_MODE
  deriving DecidableEq

/-- The function `IddSampleMonitorGetDefaultModes`. -/
def IddSampleMonitorGetDefaultModes : GetDefaultModesResult :=
  { Status := STATUS_SUCCESS
    DefaultMonitorModeBufferOutputCount := s_DefaultModes.length
    PreferredMonitorModeIdx := 1
    pDefaultMonitorModes := s_DefaultModes.map (fun m =>
      CreateIddCxMonitorMode m.Width m.Height m.VSync .DRIVER) }

/-- A monitor context with the given identity record and preferred width, for the
examples. -/
def sampleContext (bytes : List Nat) (Width : Nat) : IndirectMonitorContext :=
  { m_Monitor := 1
    monitorGuid := sampleGuid 1
    connectorId := 0
    pEdidData := { isTemplate := false, bytes := bytes }
    preferredMode := { Width := Width, Height := 1080, VSync := 60 }
    adapterLuid := none
    targetId := none }

/-! ### The extended parser and the target-mode queries -/

/-- The flag `IDDCX_BITS_PER_COMPONENT_8` of the host's headers. -/
def IDDCX_BITS_PER_COMPONENT_8 : Nat := 2

/-- The flag `IDDCX_BITS_PER_COMPONENT_10` of the host's headers. -/
def IDDCX_BITS_PER_COMPONENT_10 : Nat := 4

/-- The struct `IDDCX_MONITOR_MODE2`, without its `Size` member; of
`BitsPerComponent` the member `Rgb`, the one that is set. -/
structure IDDCX_MONITOR_MODE2 where
  Origin : IDDCX_MONITOR_MODE_ORIGIN
  MonitorVideoSignalInfo : DISPLAYCONFIG_VIDEO_SIGNAL_INFO
  BitsPerComponent_Rgb : Nat
  deriving DecidableEq

/-- The function `CreateIddCxMonitorMode2`. -/
def CreateIddCxMonitorMode2 (Width Height VSync : Nat) (Origin : IDDCX_MONITOR_MODE_ORIGIN) :
    IDDCX_MONITOR_MODE2 :=
  { Origin := Origin
    BitsPerComponent_Rgb := IDDCX_BITS_PER_COMPONENT_8 ||| IDDCX_BITS_PER_COMPONENT_10
    MonitorVideoSignalInfo := FillSignalInfo Width Height VSync true }

/-- The width, height and refresh rate that an extended monitor mode reports. -/
def modeTriple2 (m : IDDCX_MONITOR_MODE2) : Nat × Nat × Nat :=
  (m.MonitorVideoSignalInfo.activeSize_cx, m.MonitorVideoSignalInfo.activeSize_cy,
    m.MonitorVideoSignalInfo.vSyncFreq_Numerator)

/-- An extended monitor mode without its bits-per-component payload. -/
def dropBitsPerComponent (m : IDDCX_MONITOR_MODE2) : IDDCX_MONITOR_MODE :=
  { Origin := m.Origin, MonitorVideoSignalInfo := m.MonitorVideoSignalInfo }

/-- The loop of `IddSampleParseMonitorDescription2` over `monitorCtxList`. -/
def parseLoop2 (pData : List Nat) :
    List IndirectMonitorContext → Nat × Option VirtualMonitorMode →
      Nat × Option VirtualMonitorMode
  | [], acc => acc
  | it :: rest, (count, pPreferredMode) =>
    if memcmp pData it.pEdidData.bytes sizeof_edid_base = 0 then
      if it.preferredMode.Width != 0 then (count + 1, some it.preferredMode)
      else (count, pPreferredMode)
    else parseLoop2 pData rest (count, pPreferredMode)

/-- What `IddSampleParseMonitorDescription2` hands back: as for the basic parser, with
extended mode records. -/
structure ParseMonitorDescription2Result where
  Status : NTSTATUS
  MonitorModeBufferOutputCount : Option Nat
  PreferredMonitorModeIdx : Option Nat
  pMonitorModes : List IDDCX_MONITOR_MODE2
  deriving DecidableEq

/-- The function `IddSampleParseMonitorDescription2`. -/
def IddSampleParseMonitorDescription2 (s : DriverState) (DataSize : Nat) (pData : List Nat)
    (MonitorModeBufferInputCount : Nat) : ParseMonitorDescription2Result :=
  if DataSize != sizeof_edid_base then
    { Status := STATUS_INVALID_PARAMETER, MonitorModeBufferOutputCount := none,
      PreferredMonitorModeIdx := none, pMonitorModes := [] }
  else
    let r := parseLoop2 pData s.monitorCtxList (s_DefaultModes.length, none)
    let MonitorModeBufferOutputCount := r.1
    let pPreferredMode := r.2
    if MonitorModeBufferInputCount < MonitorModeBufferOutputCount then
      { Status := if MonitorModeBufferInputCount > 0 then STATUS_BUFFER_TOO_SMALL
          else STATUS_SUCCESS
        MonitorModeBufferOutputCount := some MonitorModeBufferOutputCount
        PreferredMonitorModeIdx := none
        pMonitorModes := [] }
    else
      let pMonitorModes := s_DefaultModes.map (fun m =>
        CreateIddCxMonitorMode2 m.Width m.Height m.VSync .MONITORDESCRIPTOR)
      match pPreferredMode with
      | some preferred =>
        if preferred.Width != 0 then
          { Status := STATUS_SUCCESS
            MonitorModeBufferOutputCount := some MonitorModeBufferOutputCount
            PreferredMonitorModeIdx := some s_DefaultModes.length
            pMonitorModes := pMonitorModes ++
              [CreateIddCxMonitorMode2 preferred.Width preferred.Height preferred.VSync
                .MONITORDESCRIPTOR] }
        else
          { Status := STATUS_SUCCESS
            MonitorModeBufferOutputCount := some MonitorModeBufferOutputCount
            PreferredMonitorModeIdx := some 1
            pMonitorModes := pMonitorModes }
      | none =>
        { Status := STATUS_SUCCESS
          MonitorModeBufferOutputCount := some MonitorModeBufferOutputCount
          PreferredMonitorModeIdx := some 1
          pMonitorModes := pMonitorModes }

/-- The struct `IDDCX_TARGET_MODE`, without its `Size` member: the member
`TargetVideoSignalInfo.targetVideoSignalInfo`. -/
structure IDDCX_TARGET_MODE where
  targetVideoSignalInfo : DISPLAYCONFIG_VIDEO_SIGNAL_INFO
  deriving DecidableEq

/-- The struct `IDDCX_TARGET_MODE2`, without its `Size` member. -/
structure IDDCX_TARGET_MODE2 where
  targetVideoSignalInfo : DISPLAYCONFIG_VIDEO_SIGNAL_INFO
  BitsPerComponent_Rgb : Nat
  deriving DecidableEq

/-- The function `CreateIddCxTargetMode`. -/
def CreateIddCxTargetMode (Width Height VSync : Nat) : IDDCX_TARGET_MODE :=
  { targetVideoSignalInfo := FillSignalInfo Width Height VSync false }

/-- The function `CreateIddCxTargetMode2`. -/
def CreateIddCxTargetMode2 (Width Height VSync : Nat) : IDDCX_TARGET_MODE2 :=
  { BitsPerComponent_Rgb := IDDCX_BITS_PER_COMPONENT_8 ||| IDDCX_BITS_PER_COMPONENT_10
    targetVideoSignalInfo := FillSignalInfo Width Height VSync false }

/-- The width, height and refresh rate that a target mode reports. -/
def targetTriple (m : IDDCX_TARGET_MODE) : Nat × Nat × Nat :=
  (m.targetVideoSignalInfo.activeSize_cx, m.targetVideoSignalInfo.activeSize_cy,
    m.targetVideoSignalInfo.vSyncFreq_Numerator)

/-- The width, height and refresh rate that an extended target mode reports. -/
def targetTriple2 (m : IDDCX_TARGET_MODE2) : Nat × Nat × Nat :=
  (m.targetVideoSignalInfo.activeSize_cx, m.targetVideoSignalInfo.activeSize_cy,
    m.targetVideoSignalInfo.vSyncFreq_Numerator)

/-- The entry `s_DefaultModes[i]`, for an index inside the table. -/
def s_DefaultModes_at (i : Nat) : VirtualMonitorMode :=
  s_DefaultModes.getD i { Width := 0, Height := 0, VSync := 0 }

/-- What `IddSampleMonitorQueryModes` hands back: the status, the reported count, the
vector `TargetModes` it built, and the entries copied to `pInArgs->pTargetModes`
(none when the caller's capacity is below the size of the vector). -/
structure QueryModesResult where
  Status : NTSTATUS
  TargetModeBufferOutputCount : Nat
  TargetModes : List IDDCX_TARGET_MODE
  pTargetModes : List IDDCX_TARGET_MODE
  deriving DecidableEq

/-- The function `IddSampleMonitorQueryModes`; `ctx` is the context of the monitor
object, `pMonitorContextWrapper->pContext`. -/
def IddSampleMonitorQueryModes (ctx : IndirectMonitorContext)
    (TargetModeBufferInputCount : Nat) : QueryModesResult :=
  let TargetModes := (List.range s_DefaultModes.length).foldl
    (fun TargetModes i =>
      if i = s_DefaultModes.length - 1 then TargetModes
      else TargetModes ++ [CreateIddCxTargetMode (s_DefaultModes_at i).Width
        (s_DefaultModes_at i).Height (s_DefaultModes_at i).VSync]) []
  let TargetModes :=
    if ctx.preferredMode.Width != 0 then
      TargetModes ++ [CreateIddCxTargetMode ctx.preferredMode.Width ctx.preferredMode.Height
        ctx.preferredMode.VSync]
    else TargetModes
  { Status := STATUS_SUCCESS
    TargetModeBufferOutputCount := TargetModes.length % 4294967296
    TargetModes := TargetModes
    pTargetModes := if TargetModeBufferInputCount ≥ TargetModes.length then TargetModes else [] }

/-- What `IddSampleMonitorQueryModes2` hands back. -/
structure QueryModes2Result where
  Status : NTSTATUS
  TargetModeBufferOutputCount : Nat
  TargetModes : List IDDCX_TARGET_MODE2
  pTargetModes : List IDDCX_TARGET_MODE2
  deriving DecidableEq

/-- The function `IddSampleMonitorQueryModes2`. -/
def IddSampleMonitorQueryModes2 (ctx : IndirectMonitorContext)
    (TargetModeBufferInputCount : Nat) : QueryModes2Result :=
  let TargetModes := (List.range s_DefaultModes.length).foldl
    (fun TargetModes i =>
      if i = s_DefaultModes.length - 1 then TargetModes
      else TargetModes ++ [CreateIddCxTargetMode2 (s_DefaultModes_at i).Width
        (s_DefaultModes_at i).Height (s_DefaultModes_at i).VSync]) []
  let TargetModes :=
    if ctx.preferredMode.Width != 0 then
      TargetModes ++ [CreateIddCxTargetMode2 ctx.preferredMode.Width ctx.preferredMode.Height
        ctx.preferredMode.VSync]
    else TargetModes
  { Status := STATUS_SUCCESS
    TargetModeBufferOutputCount := TargetModes.length % 4294967296
    TargetModes := TargetModes
    pTargetModes := if TargetModeBufferInputCount ≥ TargetModes.length then TargetModes else [] }

/-! ## Lemmas about the byte-buffer primitives -/

theorem length_memset (dst : List Nat) (off v n : Nat) :
    (memset dst off v n).length = dst.length := by
  induction n with
  | zero => rfl
  | succ n ih => simp [memset, ih]

theorem length_memcpy (dst : List Nat) (off : Nat) (src : List Nat) (n : Nat) :
    (memcpy dst off src n).length = dst.length := by
  induction n with
  | zero => rfl
  | succ n ih => simp [memcpy, ih]

theorem getElem?_memset (dst : List Nat) (off v n i : Nat) :
    (memset dst off v n)[i]? =
      if off ≤ i ∧ i < off + n ∧ i < dst.length then some (v % 256) else dst[i]? := by
  induction n with
  | zero =>
    have h : ¬ (off ≤ i ∧ i < off + 0 ∧ i < dst.length) := by omega
    simp only [memset, if_neg h]
  | succ n ih =>
    simp only [memset, List.getElem?_set, ih, length_memset]
    by_cases h1 : off + n = i
    · subst h1
      by_cases h2 : off + n < dst.length
      · simp [h2]
      · have h3 : dst[off + n]? = none := List.getElem?_eq_none (by omega)
        simp [h2, h3]
    · simp only [h1, if_false]
      by_cases h2 : off ≤ i ∧ i < off + n ∧ i < dst.length
      · rw [if_pos h2, if_pos (by omega)]
      · rw [if_neg h2, if_neg (by omega)]

theorem getElem?_memcpy (dst : List Nat) (off : Nat) (src : List Nat) (n i : Nat) :
    (memcpy dst off src n)[i]? =
      if off ≤ i ∧ i < off + n ∧ i < dst.length then some (src.getD (i - off) 0 % 256)
      else dst[i]? := by
  induction n with
  | zero =>
    have h : ¬ (off ≤ i ∧ i < off + 0 ∧ i < dst.length) := by omega
    simp only [memcpy, if_neg h]
  | succ n ih =>
    simp only [memcpy, List.getElem?_set, ih, length_memcpy]
    by_cases h1 : off + n = i
    · subst h1
      by_cases h2 : off + n < dst.length
      · simp [h2]
      · have h3 : dst[off + n]? = none := List.getElem?_eq_none (by omega)
        simp [h2, h3]
    · simp only [h1, if_false]
      by_cases h2 : off ≤ i ∧ i < off + n ∧ i < dst.length
      · rw [if_pos h2, if_pos (by omega)]
      · rw [if_neg h2, if_neg (by omega)]

theorem length_write_text_field (b : List Nat) (off : Nat) (s : Option (List Nat)) :
    (write_text_field b off s).length = b.length := by
  cases s with
  | none => rfl
  | some str =>
    simp only [write_text_field]
    split_ifs <;> simp [length_memset, length_memcpy]

/-- Pointwise description of one text-field update, for a field that lies
inside the buffer. -/
theorem getElem?_write_text_field (b : List Nat) (off : Nat) (str : List Nat) (i : Nat)
    (hb : off + 13 ≤ b.length) :
    (write_text_field b off (some str))[i]? =
      if strlen str = 0 then b[i]?
      else if off ≤ i ∧ i < off + strlen str ∧ i < off + 13 then
        some (str.getD (i - off) 0 % 256)
      else if i = off + strlen str ∧ strlen str < 13 then some 0x0A
      else if off + strlen str < i ∧ i < off + 13 then some 0x20
      else b[i]? := by
  simp only [write_text_field, EDID_STRING_FIELD_SIZE]
  generalize strlen str = n
  by_cases h0 : n = 0
  · simp [h0]
  · by_cases h13 : n > 13
    · simp only [h0, h13, bne_iff_ne, ne_eq, not_false_eq_true, if_true, if_false,
        Nat.sub_self, gt_iff_lt, Nat.lt_irrefl, memset, getElem?_memcpy, not_true_eq_false]
      split_ifs <;> first | rfl | omega
    · by_cases hp : 13 - n > 0
      · by_cases hq : 13 - n - 1 = 0
        · simp only [h0, h13, hp, hq, bne_iff_ne, ne_eq, not_false_eq_true, if_true, if_false,
            not_true_eq_false, List.getElem?_set, getElem?_memset, getElem?_memcpy,
            length_memset, length_memcpy]
          split_ifs <;> first | rfl | omega
        · simp only [h0, h13, hp, hq, bne_iff_ne, ne_eq, not_false_eq_true, if_true, if_false,
            not_true_eq_false, List.getElem?_set, getElem?_memset, getElem?_memcpy,
            length_memset, length_memcpy, List.length_set]
          split_ifs <;> first | rfl | omega
      · have hn : n = 13 := by omega
        subst hn
        simp only [bne_iff_ne, ne_eq, not_false_eq_true, if_true, if_false,
            Nat.sub_self, gt_iff_lt, Nat.lt_irrefl, memset, getElem?_memcpy,
            not_true_eq_false, OfNat.ofNat_ne_zero, and_false]
        split_ifs <;> first | rfl | omega

/-- A text-field update changes nothing outside the 13 bytes of its field. -/
theorem getElem?_write_text_field_frame (b : List Nat) (off : Nat) (s : Option (List Nat))
    (i : Nat) (hb : off + 13 ≤ b.length) (hi : i < off ∨ off + 13 ≤ i) :
    (write_text_field b off s)[i]? = b[i]? := by
  cases s with
  | none => rfl
  | some str =>
    rw [getElem?_write_text_field b off str i hb]
    split_ifs <;> first | rfl | omega

theorem strlen_le_length (s : List Nat) : strlen s ≤ s.length := by
  unfold strlen
  induction s with
  | nil => simp
  | cons a t ih =>
    simp only [List.takeWhile_cons]
    split
    · simp only [List.length_cons]; omega
    · simp

theorem getD_mod_of_bytes (str : List Nat) (hbytes : ∀ c ∈ str, c < 256) (j : Nat)
    (hj : j < str.length) : some (str.getD j 0 % 256) = str[j]? := by
  have h1 : str[j]? = some str[j] := List.getElem?_eq_getElem hj
  have h2 : str[j] < 256 := hbytes _ (List.getElem_mem hj)
  rw [List.getD_eq_getElem?_getD, h1]
  simp [Nat.mod_eq_of_lt h2]

theorem getElem?_text_field (b : List Nat) (off j : Nat) :
    (text_field b off)[j]? = if j < 13 then b[off + j]? else none := by
  simp [text_field, EDID_STRING_FIELD_SIZE, List.getElem?_take, List.getElem?_drop]

/-- Two buffers that agree on the 13 bytes at `off` have the same text field. -/
theorem text_field_congr (b d : List Nat) (off : Nat)
    (h : ∀ i, off ≤ i → i < off + 13 → b[i]? = d[i]?) :
    text_field b off = text_field d off := by
  apply List.ext_getElem?
  intro j
  rw [getElem?_text_field, getElem?_text_field]
  split_ifs with hj
  · exact h _ (by omega) (by omega)
  · rfl

/-- The contents of a text field after its update with a non-empty string. -/
theorem text_field_write_text_field (b : List Nat) (off : Nat) (str : List Nat)
    (hb : off + 13 ≤ b.length) (hbytes : ∀ c ∈ str, c < 256) (h1 : 1 ≤ strlen str) :
    text_field (write_text_field b off (some str)) off =
      str.take (min (strlen str) 13) ++
        (if strlen str < 13 then 0x0A :: List.replicate (12 - strlen str) 0x20 else []) := by
  apply List.ext_getElem?
  intro j
  have hlen := strlen_le_length str
  have hl : (List.take (min (strlen str) 13) str).length = min (strlen str) 13 := by
    rw [List.length_take]; omega
  have hne : ¬ strlen str = 0 := by omega
  rw [getElem?_text_field, getElem?_write_text_field b off str _ hb, if_neg hne]
  by_cases hj : j < min (strlen str) 13
  · have hj1 : j < strlen str := by omega
    have hj2 : j < 13 := by omega
    have hc : off ≤ off + j ∧ off + j < off + strlen str ∧ off + j < off + 13 := by omega
    have ho : off + j - off = j := by omega
    rw [List.getElem?_append_left (by rw [hl]; exact hj)]
    rw [List.getElem?_take_of_lt hj, if_pos hj2, if_pos hc, ho]
    exact getD_mod_of_bytes str hbytes j (by omega)
  · rw [List.getElem?_append_right (by rw [hl]; omega)]
    rw [hl]
    by_cases h13 : strlen str < 13
    · have hm : min (strlen str) 13 = strlen str := by omega
      have hc : ¬ (off ≤ off + j ∧ off + j < off + strlen str ∧ off + j < off + 13) := by omega
      rw [if_pos h13, hm, if_neg hc]
      by_cases hje : j = strlen str
      · have hj13 : j < 13 := by omega
        have hc2 : off + j = off + strlen str ∧ strlen str < 13 := by omega
        rw [if_pos hj13, if_pos hc2, hje, Nat.sub_self]
        simp
      · have hjs : j - strlen str = (j - strlen str - 1) + 1 := by omega
        have hc2 : ¬ (off + j = off + strlen str ∧ strlen str < 13) := by omega
        rw [hjs, List.getElem?_cons_succ, List.getElem?_replicate, if_neg hc2]
        by_cases hj13 : j < 13
        · have hc3 : off + strlen str < off + j ∧ off + j < off + 13 := by omega
          have hc4 : j - strlen str - 1 < 12 - strlen str := by omega
          rw [if_pos hj13, if_pos hc3, if_pos hc4]
        · have hc4 : ¬ (j - strlen str - 1 < 12 - strlen str) := by omega
          rw [if_neg hj13, if_neg hc4]
    · have hm : min (strlen str) 13 = 13 := by omega
      have hj13 : ¬ j < 13 := by omega
      rw [if_neg h13, hm, if_neg hj13]
      rfl

theorem checksum_loop_mod (b : List Nat) (n : Nat) (hn : n ≤ b.length) :
    checksum_loop b n % 256 = (b.take n).sum % 256 := by
  induction n with
  | zero => simp [checksum_loop]
  | succ n ih =>
    have hlt : n < b.length := by omega
    have ih1 := ih (by omega)
    have hg : b.getD n 0 = b[n] := by
      rw [List.getD_eq_getElem?_getD, List.getElem?_eq_getElem hlt]; rfl
    rw [List.sum_take_succ b n hlt]
    simp only [checksum_loop, hg]
    omega

theorem sum_set_last (b : List Nat) (n : Nat) (hb : b.length = n + 1) (v : Nat) :
    (b.set n v).sum = (b.take n).sum + v := by
  have hd : List.drop (n + 1) b = [] := List.drop_eq_nil_of_le (by omega)
  rw [List.set_eq_take_append_cons_drop, if_pos (by omega), hd]
  simp

theorem length_edid_base : edid_base.length = 128 := rfl

theorem sizeof_edid_base_eq : sizeof_edid_base = 128 := rfl

set_option maxRecDepth 100000 in
theorem memcpy_template :
    memcpy (List.replicate sizeof_edid_base 0) 0 edid_base sizeof_edid_base = edid_base := by
  decide

/-- The record of the allocated path is the buffer after the serial and the two
text-field updates, with the checksum stored in its last byte. -/
theorem generate_edid_fresh_eq (serial : Nat) (serial_str prod_name : Option (List Nat)) :
    generate_edid_fresh serial serial_str prod_name =
      (write_text_field (write_text_field (memcpy edid_base 12 (uint32_bytes serial) 4) 0x5F
          serial_str) 0x71 prod_name).set 127
        ((256 - checksum_loop (write_text_field (write_text_field
          (memcpy edid_base 12 (uint32_bytes serial) 4) 0x5F serial_str) 0x71 prod_name) 127
            % 256) % 256) := by
  simp only [generate_edid_fresh, memcpy_template]
  simp only [sizeof_edid_base_eq, EDID_OFFSET_SERIAL, EDID_OFFSET_SERIALSTR,
    EDID_OFFSET_PRODNAME]

theorem length_generate_edid_fresh (serial : Nat) (serial_str prod_name : Option (List Nat)) :
    (generate_edid_fresh serial serial_str prod_name).length = 128 := by
  rw [generate_edid_fresh_eq]
  simp [length_write_text_field, length_memcpy, length_edid_base]

/-- Bytes of the allocated record outside the last byte and outside the product-name
field are those after the serial-string update. -/
theorem getElem?_generate_edid_fresh (serial : Nat) (serial_str prod_name : Option (List Nat))
    (i : Nat) (h127 : i ≠ 127) (hp : i < 0x71 ∨ 0x7E ≤ i) :
    (generate_edid_fresh serial serial_str prod_name)[i]? =
      (write_text_field (memcpy edid_base 12 (uint32_bytes serial) 4) 0x5F serial_str)[i]? := by
  rw [generate_edid_fresh_eq, List.getElem?_set_ne (Ne.symm h127)]
  apply getElem?_write_text_field_frame
  · simp [length_write_text_field, length_memcpy, length_edid_base]
  · omega

theorem text_field_fresh_serialstr (serial : Nat) (serial_str prod_name : Option (List Nat)) :
    text_field (generate_edid_fresh serial serial_str prod_name) 0x5F =
      text_field (write_text_field (memcpy edid_base 12 (uint32_bytes serial) 4) 0x5F
        serial_str) 0x5F := by
  apply text_field_congr
  intro i h1 h2
  exact getElem?_generate_edid_fresh _ _ _ _ (by omega) (by omega)

theorem text_field_fresh_prodname (serial : Nat) (serial_str prod_name : Option (List Nat)) :
    text_field (generate_edid_fresh serial serial_str prod_name) 0x71 =
      text_field (write_text_field (write_text_field (memcpy edid_base 12 (uint32_bytes serial) 4)
        0x5F serial_str) 0x71 prod_name) 0x71 := by
  apply text_field_congr
  intro i h1 h2
  rw [generate_edid_fresh_eq, List.getElem?_set_ne (by omega)]

/-- Both text fields of the allocated record, for a non-empty input. -/
theorem text_field_generate_edid_fresh (serial : Nat) (str : List Nat)
    (other : Option (List Nat)) (hbytes : ∀ c ∈ str, c < 256) (h1 : 1 ≤ strlen str) :
    text_field (generate_edid_fresh serial (some str) other) 0x5F =
        str.take (min (strlen str) 13) ++
          (if strlen str < 13 then 0x0A :: List.replicate (12 - strlen str) 0x20 else []) ∧
      text_field (generate_edid_fresh serial other (some str)) 0x71 =
        str.take (min (strlen str) 13) ++
          (if strlen str < 13 then 0x0A :: List.replicate (12 - strlen str) 0x20 else []) := by
  constructor
  · rw [text_field_fresh_serialstr]
    exact text_field_write_text_field _ _ _
      (by simp [length_memcpy, length_edid_base]) hbytes h1
  · rw [text_field_fresh_prodname]
    exact text_field_write_text_field _ _ _
      (by simp [length_write_text_field, length_memcpy, length_edid_base]) hbytes h1

/-! ## Lemmas about the registry -/

theorem foldl_push_connectorId (l : List IndirectMonitorContext) (q : List Nat) :
    l.foldl (fun q ctx => q ++ [ctx.connectorId]) q = q ++ l.map (fun ctx => ctx.connectorId) := by
  induction l generalizing q with
  | nil => simp
  | cons a t ih => simp [ih]

theorem DisconnectAllMonitors_pool (s : DriverState) :
    (DisconnectAllMonitors s).freeConnectorSlots = s.freeConnectorSlots ++ heldSlots s := by
  unfold DisconnectAllMonitors heldSlots
  split
  · next h =>
    have : s.monitorCtxList = [] := List.isEmpty_iff.mp h
    simp [this]
  · simp [foldl_push_connectorId]

theorem DisconnectAllMonitors_table (s : DriverState) :
    (DisconnectAllMonitors s).monitorCtxList = [] := by
  unfold DisconnectAllMonitors
  split
  · next h => exact List.isEmpty_iff.mp h
  · rfl

theorem removeLoop_perm (g : GUID) (l : List IndirectMonitorContext) (id : Nat)
    (rest : List IndirectMonitorContext) (h : removeLoop g l = some (id, rest)) :
    (id :: rest.map (fun ctx => ctx.connectorId)).Perm (l.map (fun ctx => ctx.connectorId)) := by
  induction l generalizing id rest with
  | nil => simp [removeLoop] at h
  | cons a t ih =>
    simp only [removeLoop] at h
    split at h
    · simp only [Option.some.injEq, Prod.mk.injEq] at h
      obtain ⟨h1, h2⟩ := h
      subst h1 h2
      exact List.Perm.refl _
    · split at h
      · next id' rest' heq =>
        simp only [Option.some.injEq, Prod.mk.injEq] at h
        obtain ⟨h1, h2⟩ := h
        subst h1 h2
        have := ih id' rest' heq
        simp only [List.map_cons]
        exact (List.Perm.swap _ _ _).trans (List.Perm.cons _ this)
      · simp at h

/-- The monitor context that `CreateMonitor` builds when the host creates the
monitor object. -/
theorem CreateMonitor_success (s : DriverState) (edidData : EdidPtr) (containerId : GUID)
    (preferredMode : VirtualMonitorMode) (h : HostOutcome)
    (hc : NT_SUCCESS h.monitorCreateStatus = true) :
    CreateMonitor s edidData containerId preferredMode h =
      { state :=
          { s with
            freeConnectorSlots := s.freeConnectorSlots.tail
            monitorCtxList := s.monitorCtxList ++
              [{ m_Monitor := h.MonitorObject
                 monitorGuid := containerId
                 connectorId := s.freeConnectorSlots.headD 0 % 4294967296
                 pEdidData := edidData
                 preferredMode := preferredMode
                 adapterLuid :=
                   if NT_SUCCESS h.monitorArrivalStatus then some h.OsAdapterLuid else none
                 targetId :=
                   if NT_SUCCESS h.monitorArrivalStatus then some h.OsTargetId else none }] }
        Status := h.monitorArrivalStatus
        pMonitorContext := some
          { m_Monitor := h.MonitorObject
            monitorGuid := containerId
            connectorId := s.freeConnectorSlots.headD 0 % 4294967296
            pEdidData := edidData
            preferredMode := preferredMode
            adapterLuid :=
              if NT_SUCCESS h.monitorArrivalStatus then some h.OsAdapterLuid else none
            targetId :=
              if NT_SUCCESS h.monitorArrivalStatus then some h.OsTargetId else none }
        freed := [] } := by
  simp only [CreateMonitor, hc, if_true]

theorem CreateMonitor_failure (s : DriverState) (edidData : EdidPtr) (containerId : GUID)
    (preferredMode : VirtualMonitorMode) (h : HostOutcome)
    (hc : NT_SUCCESS h.monitorCreateStatus = false) :
    CreateMonitor s edidData containerId preferredMode h =
      { state := s, Status := h.monitorCreateStatus, pMonitorContext := none,
        freed := [edidData] } := by
  simp [CreateMonitor, hc]

/-- The three ways a control request can act on the pool and the table: not at
all, by moving the front slot of the pool to a new last table entry, or by erasing
the first entry with the requested identity and pushing its slot. -/
theorem IddSampleIoDeviceControl_cases (sz : IoctlSizes) (s : DriverState) (req : IoRequest)
    (h : HostOutcome) :
    ((IddSampleIoDeviceControl sz s req h).1.freeConnectorSlots = s.freeConnectorSlots ∧
      (IddSampleIoDeviceControl sz s req h).1.monitorCtxList = s.monitorCtxList) ∨
    (∃ k rest ctx, s.freeConnectorSlots = k :: rest ∧
      (IddSampleIoDeviceControl sz s req h).1.freeConnectorSlots = rest ∧
      (IddSampleIoDeviceControl sz s req h).1.monitorCtxList = s.monitorCtxList ++ [ctx] ∧
      ctx.connectorId = k % 4294967296) ∨
    (∃ g id rest, removeLoop g s.monitorCtxList = some (id, rest) ∧
      (IddSampleIoDeviceControl sz s req h).1.freeConnectorSlots = s.freeConnectorSlots ++ [id] ∧
      (IddSampleIoDeviceControl sz s req h).1.monitorCtxList = rest) := by
  unfold IddSampleIoDeviceControl
  cases hc : req.IoControlCode with
  | IOCTL_ADD_VIRTUAL_DISPLAY params =>
    simp only
    by_cases h1 : s.freeConnectorSlots.isEmpty = true
    · rw [if_pos h1]; exact Or.inl ⟨rfl, rfl⟩
    rw [if_neg h1]
    by_cases h2 : (decide (req.InputBufferLength < sz.sizeof_VIRTUAL_DISPLAY_PARAMS) ||
        decide (req.OutputBufferLength < sz.sizeof_VIRTUAL_DISPLAY_OUTPUT)) = true
    · rw [if_pos h2]; exact Or.inl ⟨rfl, rfl⟩
    rw [if_neg h2]
    by_cases h3 : (!NT_SUCCESS h.inputBufferStatus) = true
    · rw [if_pos h3]; exact Or.inl ⟨rfl, rfl⟩
    rw [if_neg h3]
    by_cases h4 : (!NT_SUCCESS h.outputBufferStatus) = true
    · rw [if_pos h4]; exact Or.inl ⟨rfl, rfl⟩
    rw [if_neg h4]
    by_cases h5 : (decide (params.Width > 0) && decide (params.Height > 0) &&
        decide (params.RefreshRate > 0)) = true
    · rw [if_pos h5]
      by_cases hcr : NT_SUCCESS h.monitorCreateStatus = true
      · simp only [CreateMonitor_success _ _ _ _ _ hcr]
        have hne : s.freeConnectorSlots ≠ [] := by
          intro he; simp [he] at h1
        obtain ⟨k, rest, hk⟩ := List.exists_cons_of_ne_nil hne
        exact Or.inr (Or.inl ⟨k, rest, _, hk, by simp [hk], rfl, by simp [hk]⟩)
      · have hcf : NT_SUCCESS h.monitorCreateStatus = false := by simpa using hcr
        rw [CreateMonitor_failure _ _ _ _ _ hcf]
        exact Or.inl ⟨rfl, rfl⟩
    · rw [if_neg h5]; exact Or.inl ⟨rfl, rfl⟩
  | IOCTL_REMOVE_VIRTUAL_DISPLAY params =>
    simp only
    split_ifs with h1 h2
    · exact Or.inl ⟨rfl, rfl⟩
    · exact Or.inl ⟨rfl, rfl⟩
    · split
      · next id rest heq => exact Or.inr (Or.inr ⟨_, id, rest, heq, rfl, rfl⟩)
      · exact Or.inl ⟨rfl, rfl⟩
  | IOCTL_DRIVER_PING => exact Or.inl ⟨rfl, rfl⟩
  | other code => exact Or.inl ⟨rfl, rfl⟩

theorem slots_perm_DisconnectAllMonitors (s : DriverState)
    (hinv : (s.freeConnectorSlots ++ heldSlots s).Perm (List.range IDD_SAMPLE_MONITOR_COUNT)) :
    ((DisconnectAllMonitors s).freeConnectorSlots ++ heldSlots (DisconnectAllMonitors s)).Perm
      (List.range IDD_SAMPLE_MONITOR_COUNT) := by
  rw [DisconnectAllMonitors_pool]
  simp only [heldSlots, DisconnectAllMonitors_table, List.map_nil, List.append_nil]
  exact hinv

theorem slots_perm_watchdogIteration (s : DriverState)
    (hinv : (s.freeConnectorSlots ++ heldSlots s).Perm (List.range IDD_SAMPLE_MONITOR_COUNT)) :
    ((watchdogIteration s).1.freeConnectorSlots ++ heldSlots (watchdogIteration s).1).Perm
      (List.range IDD_SAMPLE_MONITOR_COUNT) := by
  unfold watchdogIteration
  split_ifs
  · exact hinv
  · dsimp only
    split_ifs
    · exact slots_perm_DisconnectAllMonitors _ hinv
    · exact hinv
  · exact slots_perm_DisconnectAllMonitors _ hinv

theorem slots_perm_IddSampleIoDeviceControl (sz : IoctlSizes) (s : DriverState)
    (req : IoRequest) (h : HostOutcome)
    (hinv : (s.freeConnectorSlots ++ heldSlots s).Perm (List.range IDD_SAMPLE_MONITOR_COUNT)) :
    ((IddSampleIoDeviceControl sz s req h).1.freeConnectorSlots ++
      heldSlots (IddSampleIoDeviceControl sz s req h).1).Perm
        (List.range IDD_SAMPLE_MONITOR_COUNT) := by
  rcases IddSampleIoDeviceControl_cases sz s req h with ⟨h1, h2⟩ | ⟨k, rest, ctx, hk, h1, h2, h3⟩ |
    ⟨g, id, rest, hr, h1, h2⟩
  · simp only [heldSlots, h1, h2]
    exact hinv
  · have hmem : k ∈ List.range IDD_SAMPLE_MONITOR_COUNT :=
      hinv.subset (by simp [hk])
    have hlt : k < 10 := List.mem_range.mp hmem
    have hid : ctx.connectorId = k := by rw [h3]; omega
    simp only [heldSlots, h1, h2, List.map_append, List.map_cons, List.map_nil, hid]
    simp only [heldSlots, hk] at hinv
    rw [← List.append_assoc]
    exact (List.perm_append_singleton k _).trans hinv
  · have hp := removeLoop_perm g _ id rest hr
    simp only [heldSlots, h1, h2]
    simp only [heldSlots] at hinv
    rw [List.append_assoc]
    exact (List.Perm.append_left _ hp).trans hinv

theorem slots_perm_step (sz : IoctlSizes) (s : DriverState) (e : Event)
    (hinv : (s.freeConnectorSlots ++ heldSlots s).Perm (List.range IDD_SAMPLE_MONITOR_COUNT)) :
    ((step sz s e).freeConnectorSlots ++ heldSlots (step sz s e)).Perm
      (List.range IDD_SAMPLE_MONITOR_COUNT) := by
  cases e with
  | ioctl req h => exact slots_perm_IddSampleIoDeviceControl sz s req h hinv
  | disconnectAll => exact slots_perm_DisconnectAllMonitors s hinv
  | tick => exact slots_perm_watchdogIteration s hinv

theorem slots_perm_run (sz : IoctlSizes) (es : List Event) (s : DriverState)
    (hinv : (s.freeConnectorSlots ++ heldSlots s).Perm (List.range IDD_SAMPLE_MONITOR_COUNT)) :
    ((run sz s es).freeConnectorSlots ++ heldSlots (run sz s es)).Perm
      (List.range IDD_SAMPLE_MONITOR_COUNT) := by
  induction es generalizing s with
  | nil => exact hinv
  | cons e t ih => exact ih _ (slots_perm_step sz s e hinv)

theorem initialState_pool (watchdog : Option Nat) :
    (initialState watchdog).freeConnectorSlots = List.range IDD_SAMPLE_MONITOR_COUNT := by
  cases watchdog <;> simp only [initialState, LoadSettings, RunWatchdog, globals0,
    IndirectDeviceContext_ctor] <;> split_ifs <;> rfl

theorem initialState_table (watchdog : Option Nat) :
    (initialState watchdog).monitorCtxList = [] := by
  cases watchdog <;> simp only [initialState, LoadSettings, RunWatchdog, globals0,
    IndirectDeviceContext_ctor] <;> split_ifs <;> rfl

theorem slots_perm_initialState (watchdog : Option Nat) :
    ((initialState watchdog).freeConnectorSlots ++ heldSlots (initialState watchdog)).Perm
      (List.range IDD_SAMPLE_MONITOR_COUNT) := by
  simp only [heldSlots, initialState_pool, initialState_table, List.map_nil, List.append_nil]
  exact List.Perm.refl _

theorem removeLoop_none (g : GUID) (l : List IndirectMonitorContext)
    (h : ∀ ctx ∈ l, ctx.monitorGuid ≠ g) : removeLoop g l = none := by
  induction l with
  | nil => rfl
  | cons a t ih =>
    have ha : a.monitorGuid ≠ g := h a (List.mem_cons_self _ _)
    have ht := ih (fun ctx hctx => h ctx (List.mem_cons_of_mem _ hctx))
    simp [removeLoop, ha, ht]

theorem removeLoop_append_new (g : GUID) (l : List IndirectMonitorContext)
    (x : IndirectMonitorContext) (h : ∀ ctx ∈ l, ctx.monitorGuid ≠ g) (hx : x.monitorGuid = g) :
    removeLoop g (l ++ [x]) = some (x.connectorId, l) := by
  induction l with
  | nil => simp [removeLoop, hx]
  | cons a t ih =>
    have ha : a.monitorGuid ≠ g := h a (List.mem_cons_self _ _)
    have ht := ih (fun ctx hctx => h ctx (List.mem_cons_of_mem _ hctx))
    simp [removeLoop, ha, ht]

/-- The status constants that report a failure are not success codes. -/
theorem not_NT_SUCCESS_constants :
    NT_SUCCESS STATUS_TOO_MANY_NODES = false ∧ NT_SUCCESS STATUS_BUFFER_TOO_SMALL = false ∧
      NT_SUCCESS STATUS_INVALID_PARAMETER = false ∧ NT_SUCCESS STATUS_NOT_FOUND = false ∧
      NT_SUCCESS STATUS_INVALID_DEVICE_REQUEST = false := by
  decide

/-- An AddDisplay request on an empty pool. -/
theorem IddSampleIoDeviceControl_add_exhausted (sz : IoctlSizes) (s : DriverState)
    (req : IoRequest) (h : HostOutcome) (params : VIRTUAL_DISPLAY_PARAMS)
    (hc : req.IoControlCode = .IOCTL_ADD_VIRTUAL_DISPLAY params)
    (hfull : s.freeConnectorSlots = []) :
    IddSampleIoDeviceControl sz s req h =
      ({ s with watchdogCountdown := s.watchdogTimeout }, completeWith STATUS_TOO_MANY_NODES) := by
  simp [IddSampleIoDeviceControl, hc, hfull]

/-- An AddDisplay request that completes with a success status took the front slot
of the pool and appended one monitor context to the table. -/
theorem IddSampleIoDeviceControl_add_success (sz : IoctlSizes) (s : DriverState)
    (req : IoRequest) (h : HostOutcome) (params : VIRTUAL_DISPLAY_PARAMS)
    (hc : req.IoControlCode = .IOCTL_ADD_VIRTUAL_DISPLAY params)
    (hs : NT_SUCCESS (IddSampleIoDeviceControl sz s req h).2.Status = true) :
    ∃ k rest ctx, s.freeConnectorSlots = k :: rest ∧
      (IddSampleIoDeviceControl sz s req h).1 =
        { freeConnectorSlots := rest
          monitorCtxList := s.monitorCtxList ++ [ctx]
          watchdogTimeout := s.watchdogTimeout
          watchdogCountdown := s.watchdogTimeout } ∧
      ctx.monitorGuid = params.MonitorGuid ∧ ctx.connectorId = k % 4294967296 := by
  obtain ⟨c1, c2, c3, _, _⟩ := not_NT_SUCCESS_constants
  unfold IddSampleIoDeviceControl at hs ⊢
  rw [hc] at hs ⊢
  dsimp only at hs ⊢
  by_cases h1 : s.freeConnectorSlots.isEmpty = true
  · rw [if_pos h1] at hs; simp [completeWith, c1] at hs
  rw [if_neg h1] at hs ⊢
  by_cases h2 : (decide (req.InputBufferLength < sz.sizeof_VIRTUAL_DISPLAY_PARAMS) ||
      decide (req.OutputBufferLength < sz.sizeof_VIRTUAL_DISPLAY_OUTPUT)) = true
  · rw [if_pos h2] at hs; simp [completeWith, c2] at hs
  rw [if_neg h2] at hs ⊢
  by_cases h3 : (!NT_SUCCESS h.inputBufferStatus) = true
  · rw [if_pos h3] at hs; simp [completeWith] at hs h3; simp [h3] at hs
  rw [if_neg h3] at hs ⊢
  by_cases h4 : (!NT_SUCCESS h.outputBufferStatus) = true
  · rw [if_pos h4] at hs; simp [completeWith] at hs h4; simp [h4] at hs
  rw [if_neg h4] at hs ⊢
  by_cases h5 : (decide (params.Width > 0) && decide (params.Height > 0) &&
      decide (params.RefreshRate > 0)) = true
  · rw [if_pos h5] at hs ⊢
    by_cases hcr : NT_SUCCESS h.monitorCreateStatus = true
    · rw [CreateMonitor_success _ _ _ _ _ hcr]
      have hne : s.freeConnectorSlots ≠ [] := by
        intro he; simp [he] at h1
      obtain ⟨k, rest, hk⟩ := List.exists_cons_of_ne_nil hne
      rw [hk]
      exact ⟨k, rest, _, rfl, rfl, rfl, rfl⟩
    · have hcf : NT_SUCCESS h.monitorCreateStatus = false := by simpa using hcr
      rw [CreateMonitor_failure _ _ _ _ _ hcf] at hs
      simp [hcf] at hs
  · rw [if_neg h5] at hs; simp [completeWith, c3] at hs

/-- A RemoveDisplay request whose input buffer is large enough and is retrieved. -/
theorem IddSampleIoDeviceControl_remove (sz : IoctlSizes) (s : DriverState)
    (req : IoRequest) (h : HostOutcome) (params : VIRTUAL_DISPLAY_REMOVE_PARAMS)
    (hc : req.IoControlCode = .IOCTL_REMOVE_VIRTUAL_DISPLAY params)
    (hlen : sz.sizeof_VIRTUAL_DISPLAY_REMOVE_PARAMS ≤ req.InputBufferLength)
    (hin : NT_SUCCESS h.inputBufferStatus = true) :
    IddSampleIoDeviceControl sz s req h =
      match removeLoop params.MonitorGuid s.monitorCtxList with
      | some (connectorId, rest) =>
        ({ freeConnectorSlots := s.freeConnectorSlots ++ [connectorId]
           monitorCtxList := rest
           watchdogTimeout := s.watchdogTimeout
           watchdogCountdown := s.watchdogTimeout },
          completeWith STATUS_SUCCESS)
      | none => ({ s with watchdogCountdown := s.watchdogTimeout }, completeWith STATUS_NOT_FOUND) := by
  have hl : ¬ req.InputBufferLength < sz.sizeof_VIRTUAL_DISPLAY_REMOVE_PARAMS := by omega
  simp [IddSampleIoDeviceControl, hc, hl, hin]

theorem isAddDisplay_eq_true (code : IoControl) (h : isAddDisplay code = true) :
    ∃ params, code = .IOCTL_ADD_VIRTUAL_DISPLAY params := by
  cases code with
  | IOCTL_ADD_VIRTUAL_DISPLAY params => exact ⟨params, rfl⟩
  | IOCTL_REMOVE_VIRTUAL_DISPLAY params => simp [isAddDisplay] at h
  | IOCTL_DRIVER_PING => simp [isAddDisplay] at h
  | other code => simp [isAddDisplay] at h

theorem runRequests_cons (sz : IoctlSizes) (s : DriverState) (req : IoRequest) (h : HostOutcome)
    (rest : List (IoRequest × HostOutcome)) :
    runRequests sz s ((req, h) :: rest) =
      runRequests sz (IddSampleIoDeviceControl sz s req h).1 rest := rfl

/-- Each AddDisplay request that succeeds takes one slot from the pool. -/
theorem addsAllSucceed_length (sz : IoctlSizes) (reqs : List (IoRequest × HostOutcome))
    (s : DriverState) (h : addsAllSucceed sz s reqs = true) :
    (runRequests sz s reqs).freeConnectorSlots.length + reqs.length =
      s.freeConnectorSlots.length := by
  induction reqs generalizing s with
  | nil => rfl
  | cons a t ih =>
    obtain ⟨req, ho⟩ := a
    simp only [addsAllSucceed, Bool.and_eq_true] at h
    obtain ⟨⟨h1, h2⟩, h3⟩ := h
    obtain ⟨params, hp⟩ := isAddDisplay_eq_true _ h1
    obtain ⟨k, rest, ctx, hk, hst, -, -⟩ :=
      IddSampleIoDeviceControl_add_success sz s req ho params hp h2
    have hrec := ih _ h3
    have hl : (IddSampleIoDeviceControl sz s req ho).1.freeConnectorSlots.length = rest.length := by
      rw [hst]
    rw [runRequests_cons, hk]
    simp only [List.length_cons]
    omega

/-! ## The identity record generator -/

/-- C1: on the freshly allocated path, for every serial and every pair of optional
text inputs, the record returned by `generate_edid` has 128 bytes and these bytes
sum to 0 modulo 256. -/
theorem generate_edid_checksum (serial : Nat) (serial_str prod_name : Option (List Nat)) :
    (generate_edid true serial serial_str prod_name).bytes.length = 128 ∧
      (generate_edid true serial serial_str prod_name).bytes.sum % 256 = 0 := by
  refine ⟨length_generate_edid_fresh serial serial_str prod_name, ?_⟩
  show (generate_edid_fresh serial serial_str prod_name).sum % 256 = 0
  rw [generate_edid_fresh_eq]
  have hl : (write_text_field (write_text_field (memcpy edid_base 12 (uint32_bytes serial) 4)
      0x5F serial_str) 0x71 prod_name).length = 126 + 1 + 1 := by
    simp [length_write_text_field, length_memcpy, length_edid_base]
  generalize write_text_field (write_text_field (memcpy edid_base 12 (uint32_bytes serial) 4)
      0x5F serial_str) 0x71 prod_name = b at hl
  rw [sum_set_last b 127 hl]
  have h := checksum_loop_mod b 127 (by omega)
  omega

/-- C2: for every 32-bit serial `s` and all text inputs, byte `0x0C + i` of the
record that `generate_edid` generates (the allocation succeeded) is
`(s / 256 ^ i) % 256`, for `i = 0 .. 3`: the little-endian encoding of `s`. -/
theorem generate_edid_serial_le (serial : Nat) (serial_str prod_name : Option (List Nat))
    (hs : serial < 4294967296) (i : Nat) (hi : i < 4) :
    (generate_edid true serial serial_str prod_name).bytes[0x0C + i]? =
      some (serial / 256 ^ i % 256) := by
  show (generate_edid_fresh serial serial_str prod_name)[0x0C + i]? = _
  rw [getElem?_generate_edid_fresh _ _ _ _ (by omega) (by omega)]
  rw [getElem?_write_text_field_frame _ _ _ _
    (by simp [length_memcpy, length_edid_base]) (by omega)]
  rw [getElem?_memcpy, if_pos (by simp [length_edid_base]; omega)]
  have hm : serial % 4294967296 = serial := Nat.mod_eq_of_lt hs
  have h4 : i = 0 ∨ i = 1 ∨ i = 2 ∨ i = 3 := by omega
  rcases h4 with h | h | h | h <;> subst h <;> simp [uint32_bytes, hm]

theorem generate_edid_serial_le_witness :
    (generate_edid true 0xAA55BB01 (some [0x56, 0x44]) none).bytes[0x0C + 1]? =
      some (0xAA55BB01 / 256 ^ 1 % 256) :=
  generate_edid_serial_le 0xAA55BB01 (some [0x56, 0x44]) none (by decide) 1 (by decide)

/-- C3: for every string input longer than 13 bytes, the serial-string field
(offsets 0x5F..0x6B) of the record that `generate_edid` generates (the allocation
succeeded) is exactly the first 13 bytes of that input, with no line feed and no
padding, and likewise the product-name field (offsets 0x71..0x7D). -/
theorem generate_edid_truncates (serial : Nat) (str : List Nat) (other : Option (List Nat))
    (hbytes : ∀ c ∈ str, c < 256) (hlen : 13 < strlen str) :
    text_field (generate_edid true serial (some str) other).bytes EDID_OFFSET_SERIALSTR =
        str.take 13 ∧
      text_field (generate_edid true serial other (some str)).bytes EDID_OFFSET_PRODNAME =
        str.take 13 := by
  have h := text_field_generate_edid_fresh serial str other hbytes (by omega)
  have hm : min (strlen str) 13 = 13 := by omega
  have hn : ¬ strlen str < 13 := by omega
  rw [hm, if_neg hn, List.append_nil] at h
  exact h

theorem generate_edid_truncates_witness :
    text_field (generate_edid true 1 (some [83, 78, 48, 49, 50, 51, 52, 53, 54, 55, 56, 57,
        65, 66, 67]) none).bytes EDID_OFFSET_SERIALSTR =
      [83, 78, 48, 49, 50, 51, 52, 53, 54, 55, 56, 57, 65] :=
  (generate_edid_truncates 1 [83, 78, 48, 49, 50, 51, 52, 53, 54, 55, 56, 57, 65, 66, 67] none
    (by decide) (by decide)).1

/-- C4: for every text input of length `n` with `1 ≤ n ≤ 12`, the 13-byte field
(serial string or product name) of the record that `generate_edid` generates (the
allocation succeeded) holds the `n` input bytes, then one byte 0x0A, then `12 - n`
bytes 0x20; for `n = 13` it holds the 13 input bytes and no terminator. -/
theorem generate_edid_text_field (serial : Nat) (str : List Nat) (other : Option (List Nat))
    (n : Nat) (hbytes : ∀ c ∈ str, c < 256) (hn : strlen str = n) (h1 : 1 ≤ n) (h13 : n ≤ 13) :
    (n ≤ 12 →
      text_field (generate_edid true serial (some str) other).bytes EDID_OFFSET_SERIALSTR =
          str.take n ++ [0x0A] ++ List.replicate (12 - n) 0x20 ∧
        text_field (generate_edid true serial other (some str)).bytes EDID_OFFSET_PRODNAME =
          str.take n ++ [0x0A] ++ List.replicate (12 - n) 0x20) ∧
      (n = 13 →
        text_field (generate_edid true serial (some str) other).bytes EDID_OFFSET_SERIALSTR =
            str.take 13 ∧
          text_field (generate_edid true serial other (some str)).bytes EDID_OFFSET_PRODNAME =
            str.take 13) := by
  have h := text_field_generate_edid_fresh serial str other hbytes (by omega)
  rw [hn] at h
  constructor
  · intro h12
    have hm : min n 13 = n := by omega
    have hlt : n < 13 := by omega
    rw [hm, if_pos hlt] at h
    simpa using h
  · intro he
    subst he
    simpa using h

theorem generate_edid_text_field_witness :
    text_field (generate_edid true 1 none (some [83, 117, 100, 111])).bytes
        EDID_OFFSET_PRODNAME =
      [83, 117, 100, 111, 0x0A, 0x20, 0x20, 0x20, 0x20, 0x20, 0x20, 0x20, 0x20] :=
  ((generate_edid_text_field 1 [83, 117, 100, 111] none 4 (by decide) (by decide) (by decide)
    (by decide)).1 (by decide)).2

/-- C5: for all inputs and on both paths, the record returned by `generate_edid`
has exactly 128 bytes and equals `edid_base` at every offset outside the serial
field (0x0C..0x0F), the serial-string field (0x5F..0x6B), the product-name field
(0x71..0x7D) and the checksum byte (0x7F); a text field whose input is absent or
empty keeps its template bytes. -/
theorem generate_edid_frame (mallocOk : Bool) (serial : Nat)
    (serial_str prod_name : Option (List Nat)) :
    (generate_edid mallocOk serial serial_str prod_name).bytes.length = 128 ∧
      (∀ i, i < 128 → ¬ (0x0C ≤ i ∧ i ≤ 0x0F) → ¬ (0x5F ≤ i ∧ i ≤ 0x6B) →
        ¬ (0x71 ≤ i ∧ i ≤ 0x7D) → i ≠ 0x7F →
        (generate_edid mallocOk serial serial_str prod_name).bytes[i]? = edid_base[i]?) ∧
      ((∀ str, serial_str = some str → strlen str = 0) →
        text_field (generate_edid mallocOk serial serial_str prod_name).bytes
          EDID_OFFSET_SERIALSTR = text_field edid_base EDID_OFFSET_SERIALSTR) ∧
      ((∀ str, prod_name = some str → strlen str = 0) →
        text_field (generate_edid mallocOk serial serial_str prod_name).bytes
          EDID_OFFSET_PRODNAME = text_field edid_base EDID_OFFSET_PRODNAME) := by
  cases mallocOk with
  | false => exact ⟨rfl, fun _ _ _ _ _ _ => rfl, fun _ => rfl, fun _ => rfl⟩
  | true =>
    have hlen1 : 95 + 13 ≤ (memcpy edid_base 12 (uint32_bytes serial) 4).length := by
      simp [length_memcpy, length_edid_base]
    have hlen2 : 113 + 13 ≤ (write_text_field (memcpy edid_base 12 (uint32_bytes serial) 4) 95
        serial_str).length := by
      simp [length_write_text_field, length_memcpy, length_edid_base]
    refine ⟨length_generate_edid_fresh serial serial_str prod_name, ?_, ?_, ?_⟩
    · intro i hi h1 h2 h3 h4
      show (generate_edid_fresh serial serial_str prod_name)[i]? = _
      rw [getElem?_generate_edid_fresh _ _ _ _ h4 (by omega)]
      rw [getElem?_write_text_field_frame _ _ _ _ hlen1 (by omega)]
      rw [getElem?_memcpy, if_neg (by omega)]
    · intro he
      show text_field (generate_edid_fresh serial serial_str prod_name) 0x5F = _
      rw [text_field_fresh_serialstr]
      apply text_field_congr
      intro i hi1 hi2
      have hw : (write_text_field (memcpy edid_base 12 (uint32_bytes serial) 4) 0x5F
          serial_str)[i]? = (memcpy edid_base 12 (uint32_bytes serial) 4)[i]? := by
        cases serial_str with
        | none => rfl
        | some str =>
          rw [getElem?_write_text_field _ _ _ _ hlen1, if_pos (he str rfl)]
      rw [hw, getElem?_memcpy, if_neg (by omega)]
    · intro he
      show text_field (generate_edid_fresh serial serial_str prod_name) 0x71 = _
      rw [text_field_fresh_prodname]
      apply text_field_congr
      intro i hi1 hi2
      have hw : (write_text_field (write_text_field (memcpy edid_base 12 (uint32_bytes serial) 4)
          0x5F serial_str) 0x71 prod_name)[i]? =
          (write_text_field (memcpy edid_base 12 (uint32_bytes serial) 4) 0x5F
            serial_str)[i]? := by
        cases prod_name with
        | none => rfl
        | some str =>
          rw [getElem?_write_text_field _ _ _ _ hlen2, if_pos (he str rfl)]
      rw [hw, getElem?_write_text_field_frame _ _ _ _ hlen1 (by omega)]
      rw [getElem?_memcpy, if_neg (by omega)]

theorem generate_edid_frame_witness :
    text_field (generate_edid true 1 (some []) (some [83, 117, 100, 111])).bytes
        EDID_OFFSET_SERIALSTR = text_field edid_base EDID_OFFSET_SERIALSTR :=
  (generate_edid_frame true 1 (some []) (some [83, 117, 100, 111])).2.2.1
    (fun str h => by cases h; decide)


/-! ## The monitor registry -/

/-- C6: in every state reached from the initial state (one device context
constructed, pool 0..9, empty table) by any sequence of control requests
(AddDisplay, RemoveDisplay, Ping, unknown codes), disconnect-all calls and watchdog
ticks, whatever the host answers, the connector slots of the registered monitors
are pairwise distinct and below 10, and the free-slot queue followed by the held
slots is a rearrangement of 0..9, so each of 0..9 occurs in it exactly once. -/
theorem registry_slots_invariant (sz : IoctlSizes) (watchdog : Option Nat) (es : List Event) :
    (heldSlots (run sz (initialState watchdog) es)).Nodup ∧
      (∀ k ∈ heldSlots (run sz (initialState watchdog) es), k < 10) ∧
      ((run sz (initialState watchdog) es).freeConnectorSlots ++
        heldSlots (run sz (initialState watchdog) es)).Perm (List.range 10) ∧
      (∀ k, k < 10 → ((run sz (initialState watchdog) es).freeConnectorSlots ++
        heldSlots (run sz (initialState watchdog) es)).count k = 1) := by
  have hp := slots_perm_run sz es _ (slots_perm_initialState watchdog)
  have hnd : ((run sz (initialState watchdog) es).freeConnectorSlots ++
      heldSlots (run sz (initialState watchdog) es)).Nodup :=
    hp.nodup_iff.mpr (List.nodup_range 10)
  refine ⟨(List.nodup_append.mp hnd).2.1, ?_, hp, ?_⟩
  · intro k hk
    exact List.mem_range.mp (hp.subset (List.mem_append_right _ hk))
  · intro k hk
    rw [hp.count_eq]
    exact List.count_eq_one_of_mem (List.nodup_range 10) (List.mem_range.mpr hk)

/-- C7 (counterexample): from the initial state, a successful AddDisplay followed by
RemoveDisplay of the same identity leaves the pool as 1, .., 9, 0 and not as
0, .., 9; and from the reachable state in which identity 7 is already registered,
a successful AddDisplay of identity 7 followed by RemoveDisplay of identity 7 leaves
a table that differs from the one before the add. -/
theorem add_then_remove_not_exact :
    (NT_SUCCESS (IddSampleIoDeviceControl sampleSizes (initialState none)
        (sampleAdd (sampleGuid 7) 1920) (sampleHost 1)).2.Status = true ∧
      (runRequests sampleSizes (initialState none)
        [(sampleAdd (sampleGuid 7) 1920, sampleHost 1),
          (sampleRemove (sampleGuid 7), sampleHost 0)]).freeConnectorSlots =
        [1, 2, 3, 4, 5, 6, 7, 8, 9, 0] ∧
      (initialState none).freeConnectorSlots = [0, 1, 2, 3, 4, 5, 6, 7, 8, 9]) ∧
    (NT_SUCCESS (IddSampleIoDeviceControl sampleSizes
        (runRequests sampleSizes (initialState none) [(sampleAdd (sampleGuid 7) 1920, sampleHost 1)])
        (sampleAdd (sampleGuid 7) 1920) (sampleHost 2)).2.Status = true ∧
      heldSlots (runRequests sampleSizes (initialState none)
        [(sampleAdd (sampleGuid 7) 1920, sampleHost 1)]) = [0] ∧
      heldSlots (runRequests sampleSizes (initialState none)
        [(sampleAdd (sampleGuid 7) 1920, sampleHost 1),
          (sampleAdd (sampleGuid 7) 1920, sampleHost 2),
          (sampleRemove (sampleGuid 7), sampleHost 0)]) = [1]) := by
  decide

/-- C7 (amended): in every reachable state and for every identity `g` that no
registered monitor has, a successful AddDisplay with identity `g` followed by
RemoveDisplay(`g`) (input buffer large enough and retrieved) completes with
success and leaves the monitor table exactly as before the add; the free-slot pool
holds the same slots as before the add, rotated by one place: the slot that was at
the front of the queue is now at its back. -/
theorem add_then_remove (sz : IoctlSizes) (watchdog : Option Nat) (es : List Event)
    (reqA reqR : IoRequest) (hA hR : HostOutcome) (pA : VIRTUAL_DISPLAY_PARAMS) (g : GUID)
    (hcA : reqA.IoControlCode = .IOCTL_ADD_VIRTUAL_DISPLAY pA) (hg : pA.MonitorGuid = g)
    (hsucc : NT_SUCCESS
      (IddSampleIoDeviceControl sz (run sz (initialState watchdog) es) reqA hA).2.Status = true)
    (hnew : ∀ ctx ∈ (run sz (initialState watchdog) es).monitorCtxList, ctx.monitorGuid ≠ g)
    (hcR : reqR.IoControlCode = .IOCTL_REMOVE_VIRTUAL_DISPLAY { MonitorGuid := g })
    (hlen : sz.sizeof_VIRTUAL_DISPLAY_REMOVE_PARAMS ≤ reqR.InputBufferLength)
    (hin : NT_SUCCESS hR.inputBufferStatus = true) :
    (IddSampleIoDeviceControl sz
        (IddSampleIoDeviceControl sz (run sz (initialState watchdog) es) reqA hA).1
        reqR hR).2.Status = STATUS_SUCCESS ∧
      (IddSampleIoDeviceControl sz
        (IddSampleIoDeviceControl sz (run sz (initialState watchdog) es) reqA hA).1
        reqR hR).1.monitorCtxList = (run sz (initialState watchdog) es).monitorCtxList ∧
      (IddSampleIoDeviceControl sz
        (IddSampleIoDeviceControl sz (run sz (initialState watchdog) es) reqA hA).1
        reqR hR).1.freeConnectorSlots =
          (run sz (initialState watchdog) es).freeConnectorSlots.rotate 1 ∧
      (IddSampleIoDeviceControl sz
        (IddSampleIoDeviceControl sz (run sz (initialState watchdog) es) reqA hA).1
        reqR hR).1.freeConnectorSlots.Perm
          (run sz (initialState watchdog) es).freeConnectorSlots := by
  have hinv := slots_perm_run sz es _ (slots_perm_initialState watchdog)
  generalize run sz (initialState watchdog) es = s at hsucc hnew hinv ⊢
  obtain ⟨k, rest, ctx, hk, hst, hcg, hcid⟩ :=
    IddSampleIoDeviceControl_add_success sz s reqA hA pA hcA hsucc
  have hlt : k < 10 := List.mem_range.mp (hinv.subset (by simp [hk]))
  have hid : ctx.connectorId = k := by rw [hcid]; omega
  rw [hst, IddSampleIoDeviceControl_remove sz _ reqR hR _ hcR hlen hin]
  dsimp only
  rw [removeLoop_append_new g _ ctx hnew (hcg.trans hg), hid, hk]
  refine ⟨rfl, rfl, ?_, ?_⟩
  · simp [List.rotate_cons_succ]
  · exact List.perm_append_singleton k rest

theorem add_then_remove_witness :
    (IddSampleIoDeviceControl sampleSizes
      (IddSampleIoDeviceControl sampleSizes (run sampleSizes (initialState none) [])
        (sampleAdd (sampleGuid 7) 1920) (sampleHost 1)).1
      (sampleRemove (sampleGuid 7)) (sampleHost 0)).1.freeConnectorSlots =
        (run sampleSizes (initialState none) []).freeConnectorSlots.rotate 1 :=
  (add_then_remove sampleSizes none [] (sampleAdd (sampleGuid 7) 1920)
    (sampleRemove (sampleGuid 7)) (sampleHost 1) (sampleHost 0) _ (sampleGuid 7) rfl rfl
    (by decide) (by decide) rfl (by decide) (by decide)).2.2.1

/-- C8: for every state and every identity that no registered monitor has,
RemoveDisplay of that identity, with an input buffer that is large enough and is
retrieved, completes with `STATUS_NOT_FOUND` and leaves the monitor table and the
free-slot pool as they were. -/
theorem remove_display_not_found (sz : IoctlSizes) (s : DriverState) (req : IoRequest)
    (h : HostOutcome) (params : VIRTUAL_DISPLAY_REMOVE_PARAMS)
    (hc : req.IoControlCode = .IOCTL_REMOVE_VIRTUAL_DISPLAY params)
    (hlen : sz.sizeof_VIRTUAL_DISPLAY_REMOVE_PARAMS ≤ req.InputBufferLength)
    (hin : NT_SUCCESS h.inputBufferStatus = true)
    (hnone : ∀ ctx ∈ s.monitorCtxList, ctx.monitorGuid ≠ params.MonitorGuid) :
    (IddSampleIoDeviceControl sz s req h).2.Status = STATUS_NOT_FOUND ∧
      (IddSampleIoDeviceControl sz s req h).1.monitorCtxList = s.monitorCtxList ∧
      (IddSampleIoDeviceControl sz s req h).1.freeConnectorSlots = s.freeConnectorSlots := by
  rw [IddSampleIoDeviceControl_remove sz s req h params hc hlen hin,
    removeLoop_none _ _ hnone]
  exact ⟨rfl, rfl, rfl⟩

theorem remove_display_not_found_witness :
    (IddSampleIoDeviceControl sampleSizes
      (runRequests sampleSizes (initialState none) [(sampleAdd (sampleGuid 7) 1920, sampleHost 1)])
      (sampleRemove (sampleGuid 8)) (sampleHost 0)).2.Status = STATUS_NOT_FOUND :=
  (remove_display_not_found sampleSizes
    (runRequests sampleSizes (initialState none) [(sampleAdd (sampleGuid 7) 1920, sampleHost 1)])
    (sampleRemove (sampleGuid 8)) (sampleHost 0) _ rfl (by decide) (by decide) (by decide)).1

/-- C9 (counterexample): in the state reached from the initial state by ten
successful AddDisplay requests the pool is empty, and an AddDisplay request with
width 0 (buffers large enough) completes with `STATUS_TOO_MANY_NODES`, which is not
`STATUS_INVALID_PARAMETER`. -/
theorem add_display_zero_width_exhausted :
    addsAllSucceed sampleSizes (initialState none) sampleTenAdds = true ∧
      (IddSampleIoDeviceControl sampleSizes
        (runRequests sampleSizes (initialState none) sampleTenAdds)
        (sampleAdd (sampleGuid 10) 0) (sampleHost 10)).2.Status = STATUS_TOO_MANY_NODES ∧
      STATUS_TOO_MANY_NODES ≠ STATUS_INVALID_PARAMETER := by
  decide

/-- C9 (amended): an AddDisplay request in which width, height or refresh rate is 0
never allocates a connector slot nor registers a monitor; it completes with
`STATUS_INVALID_PARAMETER` in every state with at least one free slot, when its
buffers are large enough and are retrieved, and with `STATUS_TOO_MANY_NODES` when the
pool is empty. -/
theorem add_display_zero_geometry (sz : IoctlSizes) (s : DriverState) (req : IoRequest)
    (h : HostOutcome) (params : VIRTUAL_DISPLAY_PARAMS)
    (hc : req.IoControlCode = .IOCTL_ADD_VIRTUAL_DISPLAY params)
    (hz : params.Width = 0 ∨ params.Height = 0 ∨ params.RefreshRate = 0) :
    ((IddSampleIoDeviceControl sz s req h).1.freeConnectorSlots = s.freeConnectorSlots ∧
      (IddSampleIoDeviceControl sz s req h).1.monitorCtxList = s.monitorCtxList) ∧
    (s.freeConnectorSlots ≠ [] →
      sz.sizeof_VIRTUAL_DISPLAY_PARAMS ≤ req.InputBufferLength →
      sz.sizeof_VIRTUAL_DISPLAY_OUTPUT ≤ req.OutputBufferLength →
      NT_SUCCESS h.inputBufferStatus = true → NT_SUCCESS h.outputBufferStatus = true →
      (IddSampleIoDeviceControl sz s req h).2.Status = STATUS_INVALID_PARAMETER) ∧
    (s.freeConnectorSlots = [] →
      (IddSampleIoDeviceControl sz s req h).2.Status = STATUS_TOO_MANY_NODES) := by
  have h5 : ¬ (decide (params.Width > 0) && decide (params.Height > 0) &&
      decide (params.RefreshRate > 0)) = true := by
    simp only [Bool.and_eq_true, decide_eq_true_eq]
    omega
  refine ⟨?_, ?_, ?_⟩
  · unfold IddSampleIoDeviceControl
    rw [hc]
    dsimp only
    rw [if_neg h5]
    split_ifs <;> exact ⟨rfl, rfl⟩
  · intro hne hin hout h3 h4
    have h1 : ¬ s.freeConnectorSlots.isEmpty = true := by
      rw [List.isEmpty_iff]; exact hne
    have h2 : ¬ (decide (req.InputBufferLength < sz.sizeof_VIRTUAL_DISPLAY_PARAMS) ||
        decide (req.OutputBufferLength < sz.sizeof_VIRTUAL_DISPLAY_OUTPUT)) = true := by
      simp only [Bool.or_eq_true, decide_eq_true_eq]
      omega
    unfold IddSampleIoDeviceControl
    rw [hc]
    dsimp only
    rw [if_neg h1, if_neg h2, if_neg (by simp [h3]), if_neg (by simp [h4]), if_neg h5]
    rfl
  · intro hfull
    rw [IddSampleIoDeviceControl_add_exhausted sz s req h params hc hfull]
    rfl

theorem add_display_zero_geometry_witness :
    (IddSampleIoDeviceControl sampleSizes (initialState none) (sampleAdd (sampleGuid 7) 0)
      (sampleHost 1)).2.Status = STATUS_INVALID_PARAMETER :=
  (add_display_zero_geometry sampleSizes (initialState none) (sampleAdd (sampleGuid 7) 0)
    (sampleHost 1) _ rfl (Or.inl rfl)).2.1 (by decide) (by decide) (by decide) (by decide)
    (by decide)

/-- C10: in every state whose free-slot pool is empty, AddDisplay with any
parameters, buffer lengths and host answers completes with `STATUS_TOO_MANY_NODES`
and leaves the monitor table and the pool unchanged; in particular, after ten
AddDisplay requests that succeeded from the initial state the pool is empty and an
eleventh AddDisplay completes with `STATUS_TOO_MANY_NODES` and changes nothing but
the watchdog countdown, which every request resets. -/
theorem add_display_exhausted (sz : IoctlSizes) (req : IoRequest) (h : HostOutcome)
    (params : VIRTUAL_DISPLAY_PARAMS)
    (hc : req.IoControlCode = .IOCTL_ADD_VIRTUAL_DISPLAY params) :
    (∀ s : DriverState, s.freeConnectorSlots = [] →
      (IddSampleIoDeviceControl sz s req h).2.Status = STATUS_TOO_MANY_NODES ∧
        (IddSampleIoDeviceControl sz s req h).1.monitorCtxList = s.monitorCtxList ∧
        (IddSampleIoDeviceControl sz s req h).1.freeConnectorSlots = s.freeConnectorSlots) ∧
    (∀ (watchdog : Option Nat) (adds : List (IoRequest × HostOutcome)),
      adds.length = 10 → addsAllSucceed sz (initialState watchdog) adds = true →
      (runRequests sz (initialState watchdog) adds).freeConnectorSlots = [] ∧
        (IddSampleIoDeviceControl sz (runRequests sz (initialState watchdog) adds) req h).2.Status =
          STATUS_TOO_MANY_NODES ∧
        (IddSampleIoDeviceControl sz (runRequests sz (initialState watchdog) adds) req h).1
          = { runRequests sz (initialState watchdog) adds with
              watchdogCountdown :=
                (runRequests sz (initialState watchdog) adds).watchdogTimeout }) := by
  have hgen : ∀ s : DriverState, s.freeConnectorSlots = [] →
      (IddSampleIoDeviceControl sz s req h).2.Status = STATUS_TOO_MANY_NODES ∧
        (IddSampleIoDeviceControl sz s req h).1.monitorCtxList = s.monitorCtxList ∧
        (IddSampleIoDeviceControl sz s req h).1.freeConnectorSlots = s.freeConnectorSlots := by
    intro s hfull
    rw [IddSampleIoDeviceControl_add_exhausted sz s req h params hc hfull]
    exact ⟨rfl, rfl, rfl⟩
  refine ⟨hgen, ?_⟩
  intro watchdog adds hlen hall
  have hl := addsAllSucceed_length sz adds _ hall
  have h10 : (initialState watchdog).freeConnectorSlots.length = 10 := by
    rw [initialState_pool]; rfl
  have hfull : (runRequests sz (initialState watchdog) adds).freeConnectorSlots = [] :=
    List.length_eq_zero.mp (by omega)
  refine ⟨hfull, (hgen _ hfull).1, ?_⟩
  rw [IddSampleIoDeviceControl_add_exhausted sz _ req h params hc hfull]

theorem add_display_exhausted_witness :
    (IddSampleIoDeviceControl sampleSizes
      (runRequests sampleSizes (initialState none) sampleTenAdds)
      (sampleAdd (sampleGuid 10) 1920) (sampleHost 10)).2.Status = STATUS_TOO_MANY_NODES :=
  ((add_display_exhausted sampleSizes (sampleAdd (sampleGuid 10) 1920) (sampleHost 10) _ rfl).2
    none sampleTenAdds (by decide) (by decide)).2.1

/-! ## The watchdog -/

theorem watchdogIteration_idle (s : DriverState) (ht : s.watchdogTimeout ≠ 0)
    (h : s.watchdogCountdown = 0 ∨ s.monitorCtxList = []) :
    watchdogIteration s = (s, true) ∧ watchdogIterationCalls s = 0 := by
  have hc : (s.watchdogCountdown == 0 || s.monitorCtxList.isEmpty) = true := by
    rcases h with h | h <;> simp [h]
  simp [watchdogIteration, watchdogIterationCalls, ht, hc]

theorem watchdogIteration_count (s : DriverState) (n : Nat) (ht : s.watchdogTimeout ≠ 0)
    (hc : s.watchdogCountdown = n + 2) (hl : s.monitorCtxList ≠ []) :
    watchdogIteration s = ({ s with watchdogCountdown := n + 1 }, true) ∧
      watchdogIterationCalls s = 0 := by
  have hi : s.monitorCtxList.isEmpty = false := by
    cases hm : s.monitorCtxList with
    | nil => exact absurd hm hl
    | cons a t => rfl
  simp [watchdogIteration, watchdogIterationCalls, ht, hc, hi]

theorem watchdogIteration_fire (s : DriverState) (ht : s.watchdogTimeout ≠ 0)
    (hc : s.watchdogCountdown = 1) (hl : s.monitorCtxList ≠ []) :
    watchdogIteration s = (DisconnectAllMonitors { s with watchdogCountdown := 0 }, true) ∧
      watchdogIterationCalls s = 1 := by
  have hi : s.monitorCtxList.isEmpty = false := by
    cases hm : s.monitorCtxList with
    | nil => exact absurd hm hl
    | cons a t => rfl
  simp [watchdogIteration, watchdogIterationCalls, ht, hc, hi]

/-- The count of `watchdogIterationCalls` agrees with `watchdogIteration`: with one
call the table is empty afterwards, with none the table and the pool are as before. -/
theorem watchdogIterationCalls_spec (s : DriverState) :
    (watchdogIterationCalls s = 1 ∧ (watchdogIteration s).1.monitorCtxList = []) ∨
      (watchdogIterationCalls s = 0 ∧
        (watchdogIteration s).1.monitorCtxList = s.monitorCtxList ∧
        (watchdogIteration s).1.freeConnectorSlots = s.freeConnectorSlots) := by
  unfold watchdogIterationCalls watchdogIteration
  split_ifs
  · exact Or.inr ⟨rfl, rfl, rfl⟩
  · dsimp only
    split_ifs
    · exact Or.inl ⟨rfl, DisconnectAllMonitors_table _⟩
    · exact Or.inr ⟨rfl, rfl, rfl⟩
  · exact Or.inl ⟨rfl, DisconnectAllMonitors_table _⟩

theorem DisconnectAllMonitors_watchdog (s : DriverState) :
    (DisconnectAllMonitors s).watchdogTimeout = s.watchdogTimeout ∧
      (DisconnectAllMonitors s).watchdogCountdown = s.watchdogCountdown := by
  unfold DisconnectAllMonitors
  split <;> exact ⟨rfl, rfl⟩

theorem watchdogTicks_add (a b : Nat) (s : DriverState) :
    watchdogTicks (a + b) s = watchdogTicks b (watchdogTicks a s) ∧
      watchdogTicksCalls (a + b) s =
        watchdogTicksCalls a s + watchdogTicksCalls b (watchdogTicks a s) := by
  induction a generalizing s with
  | zero => simp [watchdogTicks, watchdogTicksCalls]
  | succ a ih =>
    have h := ih (watchdogIteration s).1
    have e : a + 1 + b = (a + b) + 1 := by omega
    rw [e]
    refine ⟨h.1, ?_⟩
    show watchdogIterationCalls s + watchdogTicksCalls (a + b) (watchdogIteration s).1 =
      watchdogIterationCalls s + watchdogTicksCalls a (watchdogIteration s).1 +
        watchdogTicksCalls b (watchdogTicks a (watchdogIteration s).1)
    rw [h.2]
    omega

/-- While the countdown has not run out, the iterations only decrement it. -/
theorem watchdogTicks_counting (i : Nat) (s : DriverState) (n : Nat)
    (ht : s.watchdogTimeout ≠ 0) (hc : s.watchdogCountdown = n) (hl : s.monitorCtxList ≠ [])
    (hi : i < n) :
    watchdogTicks i s = { s with watchdogCountdown := n - i } ∧ watchdogTicksCalls i s = 0 := by
  induction i generalizing s n with
  | zero =>
    subst hc
    exact ⟨rfl, rfl⟩
  | succ i ih =>
    obtain ⟨m, hm⟩ : ∃ m, n = m + 2 := ⟨n - 2, by omega⟩
    subst hm
    obtain ⟨h1, h2⟩ := watchdogIteration_count s m ht hc hl
    have h := ih { s with watchdogCountdown := m + 1 } (m + 1) ht rfl hl (by omega)
    have e : m + 1 - i = m + 2 - (i + 1) := by omega
    constructor
    · show watchdogTicks i (watchdogIteration s).1 = _
      rw [h1, h.1, e]
    · show watchdogIterationCalls s + watchdogTicksCalls i (watchdogIteration s).1 = 0
      rw [h1, h2, h.2]

/-- The iteration at which the countdown reaches zero disconnects all monitors. -/
theorem watchdogTicks_fire (s : DriverState) (n : Nat) (ht : s.watchdogTimeout ≠ 0)
    (hc : s.watchdogCountdown = n + 1) (hl : s.monitorCtxList ≠ []) :
    watchdogTicks (n + 1) s = DisconnectAllMonitors { s with watchdogCountdown := 0 } ∧
      watchdogTicksCalls (n + 1) s = 1 := by
  obtain ⟨h1, h2⟩ := watchdogTicks_add n 1 s
  rw [h1, h2]
  by_cases hn : n = 0
  · subst hn
    obtain ⟨f1, f2⟩ := watchdogIteration_fire s ht hc hl
    constructor
    · show (watchdogIteration s).1 = _
      rw [f1]
    · show 0 + (watchdogIterationCalls s + 0) = 1
      rw [f2]
  · obtain ⟨c1, c2⟩ := watchdogTicks_counting n s (n + 1) ht hc hl (by omega)
    have e : n + 1 - n = 1 := by omega
    rw [c1, c2, e]
    obtain ⟨f1, f2⟩ := watchdogIteration_fire { s with watchdogCountdown := 1 } ht rfl hl
    constructor
    · show (watchdogIteration { s with watchdogCountdown := 1 }).1 = _
      rw [f1]
    · show 0 + (watchdogIterationCalls { s with watchdogCountdown := 1 } + 0) = 1
      rw [f2]

/-- Once the countdown is zero the iterations change nothing. -/
theorem watchdogTicks_idle (m : Nat) (s : DriverState) (ht : s.watchdogTimeout ≠ 0)
    (h : s.watchdogCountdown = 0 ∨ s.monitorCtxList = []) :
    watchdogTicks m s = s ∧ watchdogTicksCalls m s = 0 := by
  induction m with
  | zero => exact ⟨rfl, rfl⟩
  | succ m ih =>
    obtain ⟨h1, h2⟩ := watchdogIteration_idle s ht h
    constructor
    · show watchdogTicks m (watchdogIteration s).1 = s
      rw [h1, ih.1]
    · show watchdogIterationCalls s + watchdogTicksCalls m (watchdogIteration s).1 = 0
      rw [h1, h2, ih.2]

/-- C11: for every configured timeout `T ≥ 1`, from a state with countdown `T` and a
non-empty monitor table, iterations of the watchdog loop with no request in
between leave the table and the pool unchanged during the first `T - 1`
iterations, the `T`-th iteration disconnects all monitors (empty table, their
slots appended to the pool), and however many iterations follow, the state stays
as it is and `DisconnectAllMonitors` has been called exactly once. -/
theorem watchdog_disconnects_once (s : DriverState) (T : Nat) (hT : 1 ≤ T)
    (ht : s.watchdogTimeout = T) (hc : s.watchdogCountdown = T)
    (hl : s.monitorCtxList ≠ []) :
    (∀ i, i < T →
      (watchdogTicks i s).monitorCtxList = s.monitorCtxList ∧
        (watchdogTicks i s).freeConnectorSlots = s.freeConnectorSlots ∧
        watchdogTicksCalls i s = 0) ∧
    ((watchdogTicks T s).monitorCtxList = [] ∧
      (watchdogTicks T s).freeConnectorSlots = s.freeConnectorSlots ++ heldSlots s ∧
      watchdogTicksCalls T s = 1) ∧
    (∀ m, watchdogTicks (T + m) s = watchdogTicks T s ∧ watchdogTicksCalls (T + m) s = 1) := by
  have ht0 : s.watchdogTimeout ≠ 0 := by omega
  obtain ⟨n, hn⟩ : ∃ n, T = n + 1 := ⟨T - 1, by omega⟩
  subst hn
  obtain ⟨f1, f2⟩ := watchdogTicks_fire s n ht0 hc hl
  refine ⟨?_, ?_, ?_⟩
  · intro i hi
    obtain ⟨c1, c2⟩ := watchdogTicks_counting i s (n + 1) ht0 hc hl hi
    rw [c1]
    exact ⟨rfl, rfl, c2⟩
  · rw [f1, DisconnectAllMonitors_table, DisconnectAllMonitors_pool]
    exact ⟨rfl, rfl, f2⟩
  · intro m
    obtain ⟨a1, a2⟩ := watchdogTicks_add (n + 1) m s
    have hw := DisconnectAllMonitors_watchdog { s with watchdogCountdown := 0 }
    obtain ⟨i1, i2⟩ := watchdogTicks_idle m (watchdogTicks (n + 1) s)
      (by rw [f1, hw.1]; exact ht0) (Or.inl (by rw [f1, hw.2]))
    rw [a1, a2, i1, i2, f2]
    exact ⟨rfl, rfl⟩

theorem watchdog_disconnects_once_witness :
    (watchdogTicks 3 (runRequests sampleSizes (initialState none)
        [(sampleAdd (sampleGuid 7) 1920, sampleHost 1)])).monitorCtxList = [] ∧
      (watchdogTicks 3 (runRequests sampleSizes (initialState none)
        [(sampleAdd (sampleGuid 7) 1920, sampleHost 1)])).freeConnectorSlots =
        (runRequests sampleSizes (initialState none)
          [(sampleAdd (sampleGuid 7) 1920, sampleHost 1)]).freeConnectorSlots ++
        heldSlots (runRequests sampleSizes (initialState none)
          [(sampleAdd (sampleGuid 7) 1920, sampleHost 1)]) ∧
      watchdogTicksCalls 3 (runRequests sampleSizes (initialState none)
        [(sampleAdd (sampleGuid 7) 1920, sampleHost 1)]) = 1 :=
  (watchdog_disconnects_once (runRequests sampleSizes (initialState none)
    [(sampleAdd (sampleGuid 7) 1920, sampleHost 1)]) 3 (by decide) (by decide) (by decide)
    (by decide)).2.1

theorem CreateMonitor_watchdog (s : DriverState) (edidData : EdidPtr) (containerId : GUID)
    (preferredMode : VirtualMonitorMode) (h : HostOutcome) :
    (CreateMonitor s edidData containerId preferredMode h).state.watchdogTimeout =
        s.watchdogTimeout ∧
      (CreateMonitor s edidData containerId preferredMode h).state.watchdogCountdown =
        s.watchdogCountdown := by
  by_cases hcr : NT_SUCCESS h.monitorCreateStatus = true
  · rw [CreateMonitor_success _ _ _ _ _ hcr]
    exact ⟨rfl, rfl⟩
  · have hcf : NT_SUCCESS h.monitorCreateStatus = false := by simpa using hcr
    rw [CreateMonitor_failure _ _ _ _ _ hcf]
    exact ⟨rfl, rfl⟩

theorem IddSampleIoDeviceControl_watchdog (sz : IoctlSizes) (s : DriverState) (req : IoRequest)
    (h : HostOutcome) :
    (IddSampleIoDeviceControl sz s req h).1.watchdogTimeout = s.watchdogTimeout ∧
      (IddSampleIoDeviceControl sz s req h).1.watchdogCountdown = s.watchdogTimeout := by
  unfold IddSampleIoDeviceControl
  cases hc : req.IoControlCode with
  | IOCTL_ADD_VIRTUAL_DISPLAY params =>
    dsimp only
    split_ifs
    · exact ⟨rfl, rfl⟩
    · exact ⟨rfl, rfl⟩
    · exact ⟨rfl, rfl⟩
    · exact ⟨rfl, rfl⟩
    · exact CreateMonitor_watchdog _ _ _ _ _
    · exact CreateMonitor_watchdog _ _ _ _ _
    · exact ⟨rfl, rfl⟩
  | IOCTL_REMOVE_VIRTUAL_DISPLAY params =>
    dsimp only
    split_ifs
    · exact ⟨rfl, rfl⟩
    · exact ⟨rfl, rfl⟩
    · split <;> exact ⟨rfl, rfl⟩
  | IOCTL_DRIVER_PING => exact ⟨rfl, rfl⟩
  | other code => exact ⟨rfl, rfl⟩

theorem IddSampleIoDeviceControl_ping (sz : IoctlSizes) (s : DriverState) (req : IoRequest)
    (h : HostOutcome) (hc : req.IoControlCode = .IOCTL_DRIVER_PING) :
    IddSampleIoDeviceControl sz s req h =
      ({ s with watchdogCountdown := s.watchdogTimeout }, completeWith STATUS_SUCCESS) := by
  simp [IddSampleIoDeviceControl, hc]

/-- C12: for every timeout `T ≥ 1` and every `j < T`, from a state with countdown
`T` and a non-empty table, `j` iterations of the watchdog loop followed by a Ping and
then iterations only: the monitors are all still registered after each of the next
`T - 1` iterations and are disconnected at the `T`-th iteration after the Ping, by
the one call of `DisconnectAllMonitors` made since the Ping. -/
theorem watchdog_ping_postpones (sz : IoctlSizes) (s : DriverState) (T j : Nat)
    (req : IoRequest) (h : HostOutcome) (hreq : req.IoControlCode = .IOCTL_DRIVER_PING)
    (hT : 1 ≤ T) (ht : s.watchdogTimeout = T) (hc : s.watchdogCountdown = T)
    (hl : s.monitorCtxList ≠ []) (hj : j < T) :
    (∀ i, i < T →
      (watchdogTicks i (IddSampleIoDeviceControl sz (watchdogTicks j s) req h).1).monitorCtxList =
          s.monitorCtxList ∧
        watchdogTicksCalls i (IddSampleIoDeviceControl sz (watchdogTicks j s) req h).1 = 0) ∧
    (watchdogTicks T (IddSampleIoDeviceControl sz (watchdogTicks j s) req h).1).monitorCtxList =
      [] ∧
    (watchdogTicks T (IddSampleIoDeviceControl sz (watchdogTicks j s) req h).1).freeConnectorSlots =
      s.freeConnectorSlots ++ heldSlots s ∧
    watchdogTicksCalls j s = 0 ∧
    watchdogTicksCalls T (IddSampleIoDeviceControl sz (watchdogTicks j s) req h).1 = 1 := by
  have ht0 : s.watchdogTimeout ≠ 0 := by omega
  obtain ⟨c1, c2⟩ := watchdogTicks_counting j s T ht0 hc hl hj
  have hs : (IddSampleIoDeviceControl sz (watchdogTicks j s) req h).1 = s := by
    rw [IddSampleIoDeviceControl_ping sz _ req h hreq, c1]
    have e : s.watchdogTimeout = s.watchdogCountdown := by rw [ht, hc]
    exact congrArg (fun x => ({ s with watchdogCountdown := x } : DriverState)) e
  rw [hs]
  obtain ⟨n, hn⟩ : ∃ n, T = n + 1 := ⟨T - 1, by omega⟩
  subst hn
  obtain ⟨f1, f2⟩ := watchdogTicks_fire s n ht0 hc hl
  refine ⟨?_, ?_, ?_, c2, f2⟩
  · intro i hi
    obtain ⟨d1, d2⟩ := watchdogTicks_counting i s (n + 1) ht0 hc hl hi
    rw [d1]
    exact ⟨rfl, d2⟩
  · rw [f1, DisconnectAllMonitors_table]
  · rw [f1, DisconnectAllMonitors_pool]
    rfl

theorem watchdog_ping_postpones_witness :
    (watchdogTicks 3 (IddSampleIoDeviceControl sampleSizes
      (watchdogTicks 2 (runRequests sampleSizes (initialState none)
        [(sampleAdd (sampleGuid 7) 1920, sampleHost 1)]))
      samplePing (sampleHost 0)).1).monitorCtxList = [] :=
  (watchdog_ping_postpones sampleSizes
    (runRequests sampleSizes (initialState none) [(sampleAdd (sampleGuid 7) 1920, sampleHost 1)])
    3 2 samplePing (sampleHost 0) rfl (by decide) (by decide) (by decide) (by decide)
    (by decide)).2.1

/-- C13: every control request (AddDisplay, RemoveDisplay, Ping or an unknown code,
whatever its buffers and the host's answers, whether it succeeds or fails) sets the
watchdog countdown to the configured timeout and leaves the timeout as it is; a
Ping request also completes with `STATUS_SUCCESS` and leaves the monitor table and
the free-slot pool unchanged. -/
theorem control_request_resets_countdown (sz : IoctlSizes) (s : DriverState) (req : IoRequest)
    (h : HostOutcome) :
    (IddSampleIoDeviceControl sz s req h).1.watchdogCountdown = s.watchdogTimeout ∧
      (IddSampleIoDeviceControl sz s req h).1.watchdogTimeout = s.watchdogTimeout ∧
      (req.IoControlCode = .IOCTL_DRIVER_PING →
        (IddSampleIoDeviceControl sz s req h).2.Status = STATUS_SUCCESS ∧
          (IddSampleIoDeviceControl sz s req h).1.monitorCtxList = s.monitorCtxList ∧
          (IddSampleIoDeviceControl sz s req h).1.freeConnectorSlots = s.freeConnectorSlots) := by
  obtain ⟨h1, h2⟩ := IddSampleIoDeviceControl_watchdog sz s req h
  refine ⟨h2, h1, ?_⟩
  intro hp
  rw [IddSampleIoDeviceControl_ping sz s req h hp]
  exact ⟨rfl, rfl, rfl⟩

theorem control_request_resets_countdown_witness :
    (IddSampleIoDeviceControl sampleSizes
      (watchdogTicks 2 (runRequests sampleSizes (initialState none)
        [(sampleAdd (sampleGuid 7) 1920, sampleHost 1)]))
      samplePing (sampleHost 0)).2.Status = STATUS_SUCCESS :=
  ((control_request_resets_countdown sampleSizes
    (watchdogTicks 2 (runRequests sampleSizes (initialState none)
      [(sampleAdd (sampleGuid 7) 1920, sampleHost 1)]))
    samplePing (sampleHost 0)).2.2 rfl).1

/-- C16: for every state `s`, `DisconnectAllMonitors` yields a state with an empty
monitor table whose pool is the pool of `s` followed by the slots of the monitors
registered in `s`, in table order, and with the watchdog variables of `s`; on an
empty table it returns `s`; and applying it twice gives the same as applying it
once. -/
theorem disconnect_all_idempotent (s : DriverState) :
    (DisconnectAllMonitors s).monitorCtxList = [] ∧
      (DisconnectAllMonitors s).freeConnectorSlots = s.freeConnectorSlots ++ heldSlots s ∧
      (DisconnectAllMonitors s).watchdogTimeout = s.watchdogTimeout ∧
      (DisconnectAllMonitors s).watchdogCountdown = s.watchdogCountdown ∧
      (s.monitorCtxList = [] → DisconnectAllMonitors s = s) ∧
      DisconnectAllMonitors (DisconnectAllMonitors s) = DisconnectAllMonitors s := by
  have hempty : ∀ t : DriverState, t.monitorCtxList = [] → DisconnectAllMonitors t = t := by
    intro t ht
    unfold DisconnectAllMonitors
    rw [if_pos (by rw [ht]; rfl)]
  exact ⟨DisconnectAllMonitors_table s, DisconnectAllMonitors_pool s,
    (DisconnectAllMonitors_watchdog s).1, (DisconnectAllMonitors_watchdog s).2, hempty s,
    hempty _ (DisconnectAllMonitors_table s)⟩

theorem disconnect_all_idempotent_witness :
    DisconnectAllMonitors (initialState none) = initialState none :=
  (disconnect_all_idempotent (initialState none)).2.2.2.2.1 (by decide)

/-- C17: with a non-zero configured timeout, an iteration of the watchdog loop taken
when the countdown is 0 or when the monitor table is empty leaves the globals as
they are (countdown, timeout, monitor table and free-slot pool), calls
`DisconnectAllMonitors` zero times, and the loop goes on. -/
theorem watchdog_tick_idle (s : DriverState) (ht : s.watchdogTimeout ≠ 0)
    (h : s.watchdogCountdown = 0 ∨ s.monitorCtxList = []) :
    (watchdogIteration s).1 = s ∧ (watchdogIteration s).2 = true ∧
      watchdogIterationCalls s = 0 ∧
      (watchdogIteration s).1.watchdogCountdown = s.watchdogCountdown ∧
      (watchdogIteration s).1.monitorCtxList = s.monitorCtxList ∧
      (watchdogIteration s).1.freeConnectorSlots = s.freeConnectorSlots := by
  obtain ⟨h1, h2⟩ := watchdogIteration_idle s ht h
  rw [h1]
  exact ⟨rfl, rfl, h2, rfl, rfl, rfl⟩

theorem watchdog_tick_idle_witness :
    (watchdogIteration (initialState none)).1 = initialState none :=
  (watchdog_tick_idle (initialState none) (by decide) (Or.inr (by decide))).1

/-! ## Failure paths of AddDisplay -/

/-- An AddDisplay request that passes all checks: the handler calls `CreateMonitor`. -/
theorem IddSampleIoDeviceControl_add_valid (sz : IoctlSizes) (s : DriverState)
    (req : IoRequest) (h : HostOutcome) (params : VIRTUAL_DISPLAY_PARAMS)
    (hc : req.IoControlCode = .IOCTL_ADD_VIRTUAL_DISPLAY params)
    (hne : s.freeConnectorSlots ≠ [])
    (hin : sz.sizeof_VIRTUAL_DISPLAY_PARAMS ≤ req.InputBufferLength)
    (hout : sz.sizeof_VIRTUAL_DISPLAY_OUTPUT ≤ req.OutputBufferLength)
    (h3 : NT_SUCCESS h.inputBufferStatus = true) (h4 : NT_SUCCESS h.outputBufferStatus = true)
    (hw : 0 < params.Width) (hh : 0 < params.Height) (hr : 0 < params.RefreshRate) :
    (IddSampleIoDeviceControl sz s req h).1 =
        (CreateMonitor { s with watchdogCountdown := s.watchdogTimeout }
          (generate_edid h.mallocOk params.MonitorGuid.Data1 (some params.SerialNumber)
            (some params.DeviceName))
          params.MonitorGuid
          { Width := params.Width, Height := params.Height, VSync := params.RefreshRate }
          h).state ∧
      (IddSampleIoDeviceControl sz s req h).2.Status =
        (CreateMonitor { s with watchdogCountdown := s.watchdogTimeout }
          (generate_edid h.mallocOk params.MonitorGuid.Data1 (some params.SerialNumber)
            (some params.DeviceName))
          params.MonitorGuid
          { Width := params.Width, Height := params.Height, VSync := params.RefreshRate }
          h).Status ∧
      (IddSampleIoDeviceControl sz s req h).2.freed =
        (CreateMonitor { s with watchdogCountdown := s.watchdogTimeout }
          (generate_edid h.mallocOk params.MonitorGuid.Data1 (some params.SerialNumber)
            (some params.DeviceName))
          params.MonitorGuid
          { Width := params.Width, Height := params.Height, VSync := params.RefreshRate }
          h).freed := by
  have c1 : ¬ s.freeConnectorSlots.isEmpty = true := by
    rw [List.isEmpty_iff]; exact hne
  have c2 : ¬ (decide (req.InputBufferLength < sz.sizeof_VIRTUAL_DISPLAY_PARAMS) ||
      decide (req.OutputBufferLength < sz.sizeof_VIRTUAL_DISPLAY_OUTPUT)) = true := by
    simp only [Bool.or_eq_true, decide_eq_true_eq]
    omega
  have c5 : (decide (params.Width > 0) && decide (params.Height > 0) &&
      decide (params.RefreshRate > 0)) = true := by
    simp only [Bool.and_eq_true, decide_eq_true_eq]
    exact ⟨⟨hw, hh⟩, hr⟩
  unfold IddSampleIoDeviceControl
  rw [hc]
  dsimp only
  rw [if_neg c1, if_neg c2, if_neg (by simp [h3]), if_neg (by simp [h4]), if_pos c5]
  refine ⟨rfl, ?_, ?_⟩ <;> dsimp only <;> split_ifs <;> rfl

/-- C18: for every state with a free slot and every valid AddDisplay request
(buffers large enough and retrieved, width, height and refresh rate non-zero) for
which the host creates the monitor object and then fails the arrival signal, the
request completes with that failure status and writes no output, and yet nothing is
rolled back: the new monitor is the last entry of the table, with the requested
identity and with the adapter and target identifiers unset, and the slot it holds,
the one that was at the front of the pool, is no longer in the pool. -/
theorem arrival_failure_not_rolled_back (sz : IoctlSizes) (s : DriverState) (req : IoRequest)
    (h : HostOutcome) (params : VIRTUAL_DISPLAY_PARAMS) (k : Nat) (rest : List Nat)
    (hc : req.IoControlCode = .IOCTL_ADD_VIRTUAL_DISPLAY params)
    (hk : s.freeConnectorSlots = k :: rest)
    (hin : sz.sizeof_VIRTUAL_DISPLAY_PARAMS ≤ req.InputBufferLength)
    (hout : sz.sizeof_VIRTUAL_DISPLAY_OUTPUT ≤ req.OutputBufferLength)
    (h3 : NT_SUCCESS h.inputBufferStatus = true) (h4 : NT_SUCCESS h.outputBufferStatus = true)
    (hw : 0 < params.Width) (hh : 0 < params.Height) (hr : 0 < params.RefreshRate)
    (hcr : NT_SUCCESS h.monitorCreateStatus = true)
    (har : NT_SUCCESS h.monitorArrivalStatus = false) :
    (IddSampleIoDeviceControl sz s req h).2.Status = h.monitorArrivalStatus ∧
      NT_SUCCESS (IddSampleIoDeviceControl sz s req h).2.Status = false ∧
      (IddSampleIoDeviceControl sz s req h).1.freeConnectorSlots = rest ∧
      ∃ ctx, (IddSampleIoDeviceControl sz s req h).1.monitorCtxList = s.monitorCtxList ++ [ctx] ∧
        ctx.monitorGuid = params.MonitorGuid ∧
        ctx.connectorId = k % 4294967296 ∧ (k < 4294967296 → ctx.connectorId = k) ∧
        ctx.adapterLuid = none ∧ ctx.targetId = none := by
  have hne : s.freeConnectorSlots ≠ [] := by rw [hk]; exact List.cons_ne_nil _ _
  obtain ⟨e1, e2, -⟩ :=
    IddSampleIoDeviceControl_add_valid sz s req h params hc hne hin hout h3 h4 hw hh hr
  rw [e1, e2, CreateMonitor_success _ _ _ _ _ hcr]
  dsimp only
  rw [hk]
  refine ⟨rfl, har, rfl, _, rfl, rfl, rfl, ?_, ?_, ?_⟩
  · intro hlt
    exact Nat.mod_eq_of_lt hlt
  · simp [har]
  · simp [har]

theorem arrival_failure_not_rolled_back_witness :
    (IddSampleIoDeviceControl sampleSizes (initialState none) (sampleAdd (sampleGuid 7) 1920)
      { sampleHost 1 with monitorArrivalStatus := STATUS_INVALID_PARAMETER }).1.freeConnectorSlots
      = [1, 2, 3, 4, 5, 6, 7, 8, 9] :=
  (arrival_failure_not_rolled_back sampleSizes (initialState none)
    (sampleAdd (sampleGuid 7) 1920)
    { sampleHost 1 with monitorArrivalStatus := STATUS_INVALID_PARAMETER } _ 0
    [1, 2, 3, 4, 5, 6, 7, 8, 9] rfl (by decide) (by decide) (by decide) (by decide) (by decide)
    (by decide) (by decide) (by decide) (by decide) (by decide)).2.2.1

/-- C20 (the code at the failing input): when `malloc` fails, `generate_edid` returns
the shared template, and when `IddCxMonitorCreate` then fails, the failure path of
`CreateMonitor` passes that very pointer to `free`; the destructor of a monitor
context, for its part, never frees the template. -/
theorem add_display_frees_template :
    (generate_edid false 7 (some [83, 78, 49]) (some [83, 117, 100, 111])).isTemplate = true ∧
      (IddSampleIoDeviceControl sampleSizes (initialState none) (sampleAdd (sampleGuid 7) 1920)
        (sampleHostOutOfMemory STATUS_INVALID_PARAMETER)).2.freed =
        [{ isTemplate := true, bytes := edid_base }] ∧
      (∀ ctx : IndirectMonitorContext,
        ∀ p ∈ IndirectMonitorContext_dtor ctx, p.isTemplate = false) := by
  refine ⟨rfl, by decide, ?_⟩
  intro ctx p hp
  unfold IndirectMonitorContext_dtor at hp
  split_ifs at hp with hi
  · simp only [List.mem_singleton] at hp
    subst hp
    simpa using hi
  · simp at hp

/-! ## The frame pump -/

theorem not_SUCCEEDED_E_PENDING : SUCCEEDED E_PENDING = false := by decide

theorem SUCCEEDED_eq_not_FAILED (hr : Int) : SUCCEEDED hr = !FAILED hr := by
  unfold SUCCEEDED FAILED
  by_cases h : 0 ≤ hr
  · have h' : ¬ hr < 0 := by omega
    simp [h, h']
  · have h' : hr < 0 := by omega
    simp [h, h']

/-- C19: an iteration of the loop of `RunCore` goes on exactly when the buffer request
reports `E_PENDING` and the wait ends with the availability signal or with the
16-unit timeout, or the buffer request succeeds and the finished-processing
notification succeeds, the buffer having been released before that notification; in
every other case the loop is left; and when binding the device fails, `RunCore`
returns without starting an iteration. -/
theorem pump_iteration_continues_iff (buffer2 : Bool) (h : PumpHost) :
    ((RunCoreIteration buffer2 h).1 = true ↔
      (h.acquireHr = E_PENDING ∧ (h.WaitResult = WAIT_OBJECT_0 ∨ h.WaitResult = WAIT_TIMEOUT)) ∨
      (SUCCEEDED h.acquireHr = true ∧ SUCCEEDED h.finishedHr = true)) ∧
    (h.acquireHr = E_PENDING →
      (RunCoreIteration buffer2 h).2 =
        [if buffer2 then PumpCall.ReleaseAndAcquireBuffer2 else PumpCall.ReleaseAndAcquireBuffer,
          PumpCall.WaitForMultipleObjects 16]) ∧
    (SUCCEEDED h.acquireHr = true →
      (RunCoreIteration buffer2 h).2 =
        [if buffer2 then PumpCall.ReleaseAndAcquireBuffer2 else PumpCall.ReleaseAndAcquireBuffer,
          PumpCall.Attach h.pSurface, PumpCall.Reset h.pSurface,
          PumpCall.FinishedProcessingFrame]) ∧
    (∀ (asHr setDeviceHr : HRESULT) (answers : List PumpHost),
      FAILED asHr = true ∨ FAILED setDeviceHr = true →
      RunCore buffer2 asHr setDeviceHr answers =
        { iterations := 0, calls := [], returned := true }) ∧
    (∀ (asHr setDeviceHr : HRESULT) (rest : List PumpHost),
      FAILED asHr = false → FAILED setDeviceHr = false →
      (RunCoreIteration buffer2 h).1 = false →
      RunCore buffer2 asHr setDeviceHr (h :: rest) =
        { iterations := 1, calls := (RunCoreIteration buffer2 h).2, returned := true }) := by
  have hpe := not_SUCCEEDED_E_PENDING
  refine ⟨?_, ?_, ?_, ?_, ?_⟩
  · unfold RunCoreIteration
    dsimp only
    by_cases hp : h.acquireHr = E_PENDING
    · rw [if_pos hp]
      have hns : ¬ (SUCCEEDED h.acquireHr = true) := by rw [hp, hpe]; simp
      by_cases hw : h.WaitResult = WAIT_OBJECT_0 ∨ h.WaitResult = WAIT_TIMEOUT
      · rw [if_pos hw]
        simp [hp, hw]
      · rw [if_neg hw]
        split_ifs <;> simp [hw, hns]
    · rw [if_neg hp]
      by_cases hs : SUCCEEDED h.acquireHr = true
      · rw [if_pos hs]
        by_cases hf : FAILED h.finishedHr = true
        · rw [if_pos hf]
          have : SUCCEEDED h.finishedHr = false := by
            rw [SUCCEEDED_eq_not_FAILED, hf]; rfl
          simp [hp, this]
        · rw [if_neg hf]
          have : SUCCEEDED h.finishedHr = true := by
            rw [SUCCEEDED_eq_not_FAILED]; simpa using hf
          simp [hs, this]
      · rw [if_neg hs]
        simp [hp, hs]
  · intro hp
    unfold RunCoreIteration
    dsimp only
    rw [if_pos hp]
    split_ifs <;> rfl
  · intro hs
    have hp : ¬ h.acquireHr = E_PENDING := by
      intro hp
      rw [hp, hpe] at hs
      exact Bool.false_ne_true hs
    unfold RunCoreIteration
    dsimp only
    rw [if_neg hp, if_pos hs]
    split_ifs <;> rfl
  · intro asHr setDeviceHr answers hf
    unfold RunCore
    rcases hf with hf | hf
    · rw [if_pos hf]
    · split_ifs <;> rfl
  · intro asHr setDeviceHr rest h1 h2 hx
    unfold RunCore
    rw [if_neg (by simp [h1]), if_neg (by simp [h2])]
    simp only [RunCoreLoop, hx]
    rfl

theorem pump_iteration_continues_iff_witness :
    RunCore true (-1) 0 [{ acquireHr := 0, pSurface := 5, WaitResult := 0, finishedHr := 0 }] =
      { iterations := 0, calls := [], returned := true } :=
  (pump_iteration_continues_iff true
    { acquireHr := 0, pSurface := 5, WaitResult := 0, finishedHr := 0 }).2.2.2.1 (-1) 0 _
    (Or.inl (by decide))

/-! ## The identity-record parser -/

theorem s_DefaultModes_length : s_DefaultModes.length = 47 := rfl

theorem memcmp_eq_zero_iff (n : Nat) (a b : List Nat) (ha : a.length = n) (hb : b.length = n) :
    memcmp a b n = 0 ↔ a = b := by
  induction n generalizing a b with
  | zero =>
    rw [List.length_eq_zero.mp ha, List.length_eq_zero.mp hb]
    simp [memcmp]
  | succ n ih =>
    cases a with
    | nil => simp at ha
    | cons x a' =>
      cases b with
      | nil => simp at hb
      | cons y b' =>
        have ha' : a'.length = n := by simpa using ha
        have hb' : b'.length = n := by simpa using hb
        simp only [memcmp, List.headD_cons, List.tail_cons, List.cons.injEq]
        by_cases h1 : x < y
        · rw [if_pos h1]
          constructor
          · intro hc; exact absurd hc (by decide)
          · intro hc; omega
        · rw [if_neg h1]
          by_cases h2 : x > y
          · rw [if_pos h2]
            constructor
            · intro hc; exact absurd hc (by decide)
            · intro hc; omega
          · rw [if_neg h2, ih a' b' ha' hb']
            have : x = y := by omega
            simp [this]

theorem parseLoop_no_match (pData : List Nat) (hp : pData.length = 128)
    (l : List IndirectMonitorContext) (hl : ∀ ctx ∈ l, ctx.pEdidData.bytes.length = 128)
    (hno : ∀ ctx ∈ l, ctx.pEdidData.bytes ≠ pData)
    (acc : Nat × Option VirtualMonitorMode) : parseLoop pData l acc = acc := by
  induction l with
  | nil => rfl
  | cons a t ih =>
    have ha : ¬ memcmp pData a.pEdidData.bytes sizeof_edid_base = 0 := by
      rw [sizeof_edid_base_eq, memcmp_eq_zero_iff 128 _ _ hp (hl a (List.mem_cons_self _ _))]
      exact fun he => hno a (List.mem_cons_self _ _) he.symm
    obtain ⟨count, p⟩ := acc
    simp only [parseLoop, if_neg ha]
    exact ih (fun ctx hc => hl ctx (List.mem_cons_of_mem _ hc))
      (fun ctx hc => hno ctx (List.mem_cons_of_mem _ hc))

theorem parseLoop_first_match (pData : List Nat) (hp : pData.length = 128)
    (l : List IndirectMonitorContext) (hl : ∀ ctx ∈ l, ctx.pEdidData.bytes.length = 128)
    (ctx : IndirectMonitorContext)
    (hf : l.find? (fun x => decide (x.pEdidData.bytes = pData)) = some ctx)
    (hw : ctx.preferredMode.Width ≠ 0) (count : Nat) (p : Option VirtualMonitorMode) :
    parseLoop pData l (count, p) = (count + 1, some ctx.preferredMode) := by
  induction l with
  | nil => simp at hf
  | cons a t ih =>
    have hiff := memcmp_eq_zero_iff 128 pData a.pEdidData.bytes hp
      (hl a (List.mem_cons_self _ _))
    by_cases he : a.pEdidData.bytes = pData
    · have hm : memcmp pData a.pEdidData.bytes sizeof_edid_base = 0 := by
        rw [sizeof_edid_base_eq, hiff]; exact he.symm
      have hctx : a = ctx := by
        simpa [List.find?_cons, he] using hf
      subst hctx
      simp only [parseLoop, if_pos hm]
      simp [hw]
    · have hm : ¬ memcmp pData a.pEdidData.bytes sizeof_edid_base = 0 := by
        rw [sizeof_edid_base_eq, hiff]; exact fun h => he h.symm
      have hf' : t.find? (fun x => decide (x.pEdidData.bytes = pData)) = some ctx := by
        simpa [List.find?_cons, he] using hf
      simp only [parseLoop, if_neg hm]
      exact ih (fun x hx => hl x (List.mem_cons_of_mem _ hx)) hf'

theorem modeTriple_catalog (o : IDDCX_MONITOR_MODE_ORIGIN) :
    (s_DefaultModes.map (fun m => CreateIddCxMonitorMode m.Width m.Height m.VSync o)).map
      modeTriple = s_DefaultModes.map virtualModeTriple := by
  rw [List.map_map]
  rfl

set_option maxRecDepth 100000 in
/-- C14 (the code at the failing input): when no preferred mode is appended (no
monitor registered, or the matching monitor has a zero preferred width), the parser
returns the 47 catalog modes and the preferred index 1, and the default-mode query
returns the preferred index 1 as well; index 1 designates the second catalog entry,
800x600 at 60 Hz, and not the first one, 800x600 at 30 Hz. -/
theorem preferred_index_is_second_entry :
    (IddSampleParseMonitorDescription (initialState none) 128 edid_base 47).PreferredMonitorModeIdx
        = some 1 ∧
      (IddSampleParseMonitorDescription (initialState none) 128 edid_base 47).pMonitorModes.map
        modeTriple = s_DefaultModes.map virtualModeTriple ∧
      (IddSampleParseMonitorDescription
        { initialState none with monitorCtxList := [sampleContext edid_base 0] }
        128 edid_base 47).PreferredMonitorModeIdx = some 1 ∧
      IddSampleMonitorGetDefaultModes.PreferredMonitorModeIdx = 1 ∧
      (s_DefaultModes.map virtualModeTriple)[0]? = some (800, 600, 30) ∧
      (s_DefaultModes.map virtualModeTriple)[1]? = some (800, 600, 60) := by
  refine ⟨by decide, by decide, by decide, rfl, rfl, rfl⟩

/-- C15: for every state whose stored identity records have 128 bytes, every 128-byte
query record and a sufficient capacity: if the first registered monitor whose
stored record equals the query has a non-zero preferred width, the parser returns
the 47 catalog modes in catalog order followed by that monitor's preferred width,
height and refresh rate, reports the count 48 and the preferred index 47; if the
query differs from every stored record, it returns the 47 catalog modes only. -/
theorem parse_appends_preferred_mode (s : DriverState) (pData : List Nat) (cap : Nat)
    (hp : pData.length = 128)
    (hl : ∀ ctx ∈ s.monitorCtxList, ctx.pEdidData.bytes.length = 128) :
    (∀ ctx, s.monitorCtxList.find? (fun x => decide (x.pEdidData.bytes = pData)) = some ctx →
      ctx.preferredMode.Width ≠ 0 → 48 ≤ cap →
      (IddSampleParseMonitorDescription s 128 pData cap).Status = STATUS_SUCCESS ∧
        (IddSampleParseMonitorDescription s 128 pData cap).MonitorModeBufferOutputCount =
          some 48 ∧
        (IddSampleParseMonitorDescription s 128 pData cap).PreferredMonitorModeIdx = some 47 ∧
        (IddSampleParseMonitorDescription s 128 pData cap).pMonitorModes.map modeTriple =
          s_DefaultModes.map virtualModeTriple ++ [virtualModeTriple ctx.preferredMode] ∧
        (IddSampleParseMonitorDescription s 128 pData cap).pMonitorModes.length = 48) ∧
    ((∀ ctx ∈ s.monitorCtxList, ctx.pEdidData.bytes ≠ pData) → 47 ≤ cap →
      (IddSampleParseMonitorDescription s 128 pData cap).Status = STATUS_SUCCESS ∧
        (IddSampleParseMonitorDescription s 128 pData cap).MonitorModeBufferOutputCount =
          some 47 ∧
        (IddSampleParseMonitorDescription s 128 pData cap).pMonitorModes.map modeTriple =
          s_DefaultModes.map virtualModeTriple ∧
        (IddSampleParseMonitorDescription s 128 pData cap).pMonitorModes.length = 47) := by
  have hsize : ¬ ((128 != sizeof_edid_base) = true) := by
    rw [sizeof_edid_base_eq]; decide
  constructor
  · intro ctx hf hw hcap
    have hloop := parseLoop_first_match pData hp s.monitorCtxList hl ctx hf hw
      s_DefaultModes.length none
    have hcap' : ¬ cap < s_DefaultModes.length + 1 := by
      rw [s_DefaultModes_length]; omega
    have hw' : (ctx.preferredMode.Width != 0) = true := by simpa using hw
    unfold IddSampleParseMonitorDescription
    rw [if_neg hsize]
    dsimp only
    rw [hloop]
    dsimp only
    rw [if_neg hcap', if_pos hw']
    refine ⟨rfl, rfl, rfl, ?_, ?_⟩
    · rw [List.map_append, modeTriple_catalog]
      rfl
    · rw [List.length_append, List.length_map, s_DefaultModes_length]
      rfl
  · intro hno hcap
    have hloop := parseLoop_no_match pData hp s.monitorCtxList hl hno
      (s_DefaultModes.length, none)
    have hcap' : ¬ cap < s_DefaultModes.length := by
      rw [s_DefaultModes_length]; omega
    unfold IddSampleParseMonitorDescription
    rw [if_neg hsize]
    dsimp only
    rw [hloop]
    dsimp only
    rw [if_neg hcap']
    refine ⟨rfl, rfl, modeTriple_catalog _, ?_⟩
    rw [List.length_map, s_DefaultModes_length]

set_option maxRecDepth 100000 in
theorem parse_appends_preferred_mode_witness :
    (IddSampleParseMonitorDescription
      { initialState none with monitorCtxList := [sampleContext edid_base 3000] }
      128 edid_base 48).PreferredMonitorModeIdx = some 47 :=
  ((parse_appends_preferred_mode
    { initialState none with monitorCtxList := [sampleContext edid_base 3000] }
    edid_base 48 rfl (by decide)).1 (sampleContext edid_base 3000) (by decide) (by decide)
    (by decide)).2.2.1

/-! ## The extended parser, the template and the target modes -/

theorem parseLoop2_eq_parseLoop (pData : List Nat) (l : List IndirectMonitorContext)
    (acc : Nat × Option VirtualMonitorMode) : parseLoop2 pData l acc = parseLoop pData l acc := by
  induction l with
  | nil => rfl
  | cons a t ih =>
    obtain ⟨count, p⟩ := acc
    simp only [parseLoop2, parseLoop, ih]

theorem modeTriple2_catalog :
    (s_DefaultModes.map (fun m =>
      CreateIddCxMonitorMode2 m.Width m.Height m.VSync .MONITORDESCRIPTOR)).map modeTriple2 =
    (s_DefaultModes.map (fun m =>
      CreateIddCxMonitorMode m.Width m.Height m.VSync .MONITORDESCRIPTOR)).map modeTriple := by
  rw [List.map_map, List.map_map]
  rfl

theorem dropBitsPerComponent_catalog :
    (s_DefaultModes.map (fun m =>
      CreateIddCxMonitorMode2 m.Width m.Height m.VSync .MONITORDESCRIPTOR)).map
        dropBitsPerComponent =
    s_DefaultModes.map (fun m =>
      CreateIddCxMonitorMode m.Width m.Height m.VSync .MONITORDESCRIPTOR) := by
  rw [List.map_map]
  rfl

theorem bitsPerComponent_catalog :
    ∀ m ∈ s_DefaultModes.map (fun m =>
      CreateIddCxMonitorMode2 m.Width m.Height m.VSync .MONITORDESCRIPTOR),
      m.BitsPerComponent_Rgb = 6 := by
  intro m hm
  obtain ⟨v, -, hv⟩ := List.mem_map.mp hm
  rw [← hv]
  rfl

/-- C21: for every state, record bytes, declared record size and output capacity,
the extended parser returns the same status, the same output count and the same
preferred index as the basic parser, and mode records with the same width, height
and refresh rate in the same order; an extended record is the basic record plus the
bits-per-component payload, which is the constant 8-or-10 bits (value 6). -/
theorem parsers_agree (s : DriverState) (DataSize : Nat) (pData : List Nat) (cap : Nat) :
    (IddSampleParseMonitorDescription2 s DataSize pData cap).Status =
        (IddSampleParseMonitorDescription s DataSize pData cap).Status ∧
      (IddSampleParseMonitorDescription2 s DataSize pData cap).MonitorModeBufferOutputCount =
        (IddSampleParseMonitorDescription s DataSize pData cap).MonitorModeBufferOutputCount ∧
      (IddSampleParseMonitorDescription2 s DataSize pData cap).PreferredMonitorModeIdx =
        (IddSampleParseMonitorDescription s DataSize pData cap).PreferredMonitorModeIdx ∧
      (IddSampleParseMonitorDescription2 s DataSize pData cap).pMonitorModes.map modeTriple2 =
        (IddSampleParseMonitorDescription s DataSize pData cap).pMonitorModes.map modeTriple ∧
      (IddSampleParseMonitorDescription2 s DataSize pData cap).pMonitorModes.map
          dropBitsPerComponent =
        (IddSampleParseMonitorDescription s DataSize pData cap).pMonitorModes ∧
      (∀ m ∈ (IddSampleParseMonitorDescription2 s DataSize pData cap).pMonitorModes,
        m.BitsPerComponent_Rgb = 6) := by
  unfold IddSampleParseMonitorDescription2 IddSampleParseMonitorDescription
  rw [parseLoop2_eq_parseLoop]
  by_cases hd : (DataSize != sizeof_edid_base) = true
  · rw [if_pos hd, if_pos hd]
    exact ⟨rfl, rfl, rfl, rfl, rfl, fun m hm => absurd hm (List.not_mem_nil m)⟩
  · rw [if_neg hd, if_neg hd]
    dsimp only
    generalize parseLoop pData s.monitorCtxList (s_DefaultModes.length, none) = r
    obtain ⟨count, p⟩ := r
    dsimp only
    by_cases hcap : cap < count
    · rw [if_pos hcap, if_pos hcap]
      exact ⟨rfl, rfl, rfl, rfl, rfl, fun m hm => absurd hm (List.not_mem_nil m)⟩
    · rw [if_neg hcap, if_neg hcap]
      cases p with
      | none =>
        dsimp only
        exact ⟨rfl, rfl, rfl, modeTriple2_catalog, dropBitsPerComponent_catalog,
          bitsPerComponent_catalog⟩
      | some preferred =>
        dsimp only
        by_cases hw : (preferred.Width != 0) = true
        · rw [if_pos hw, if_pos hw]
          dsimp only
          refine ⟨rfl, rfl, rfl, ?_, ?_, ?_⟩
          · rw [List.map_append, List.map_append, modeTriple2_catalog]
            rfl
          · rw [List.map_append, dropBitsPerComponent_catalog]
            rfl
          · intro m hm
            rcases List.mem_append.mp hm with h1 | h1
            · exact bitsPerComponent_catalog m h1
            · rw [List.mem_singleton.mp h1]
              rfl
        · rw [if_neg hw, if_neg hw]
          exact ⟨rfl, rfl, rfl, modeTriple2_catalog, dropBitsPerComponent_catalog,
            bitsPerComponent_catalog⟩

set_option maxRecDepth 100000 in
/-- C22: the 128 bytes of the template `edid_base` sum to 0 modulo 256, and on the
allocation-failure path `generate_edid` returns the template itself, byte for byte,
whatever the inputs, so that record sums to 0 modulo 256 as well. -/
theorem edid_base_checksum (serial : Nat) (serial_str prod_name : Option (List Nat)) :
    edid_base.length = 128 ∧ edid_base.sum % 256 = 0 ∧
      (generate_edid false serial serial_str prod_name).isTemplate = true ∧
      (generate_edid false serial serial_str prod_name).bytes = edid_base ∧
      (generate_edid false serial serial_str prod_name).bytes.sum % 256 = 0 := by
  have h : edid_base.sum % 256 = 0 := by decide
  exact ⟨rfl, h, rfl, rfl, h⟩

set_option maxRecDepth 100000 in
theorem queryModes_loop :
    (List.range s_DefaultModes.length).foldl
      (fun TargetModes i =>
        if i = s_DefaultModes.length - 1 then TargetModes
        else TargetModes ++ [CreateIddCxTargetMode (s_DefaultModes_at i).Width
          (s_DefaultModes_at i).Height (s_DefaultModes_at i).VSync]) [] =
    (s_DefaultModes.take 46).map (fun m => CreateIddCxTargetMode m.Width m.Height m.VSync) := by
  decide

set_option maxRecDepth 100000 in
theorem queryModes2_loop :
    (List.range s_DefaultModes.length).foldl
      (fun TargetModes i =>
        if i = s_DefaultModes.length - 1 then TargetModes
        else TargetModes ++ [CreateIddCxTargetMode2 (s_DefaultModes_at i).Width
          (s_DefaultModes_at i).Height (s_DefaultModes_at i).VSync]) [] =
    (s_DefaultModes.take 46).map (fun m => CreateIddCxTargetMode2 m.Width m.Height m.VSync) := by
  decide

theorem targetTriple_catalog :
    ((s_DefaultModes.take 46).map (fun m =>
      CreateIddCxTargetMode m.Width m.Height m.VSync)).map targetTriple =
    (s_DefaultModes.take 46).map virtualModeTriple := by
  rw [List.map_map]
  rfl

theorem targetTriple2_catalog :
    ((s_DefaultModes.take 46).map (fun m =>
      CreateIddCxTargetMode2 m.Width m.Height m.VSync)).map targetTriple2 =
    (s_DefaultModes.take 46).map virtualModeTriple := by
  rw [List.map_map]
  rfl

set_option maxRecDepth 100000 in
theorem last_entry_not_in_first_46 :
    (3840, 2160, 240) ∉ (s_DefaultModes.take 46).map virtualModeTriple := by
  decide

set_option maxRecDepth 100000 in
theorem last_entry_in_catalog :
    (3840, 2160, 240) ∈ s_DefaultModes.map virtualModeTriple := by
  decide

theorem IddSampleMonitorQueryModes_triples (ctx : IndirectMonitorContext) (cap : Nat) :
    (IddSampleMonitorQueryModes ctx cap).TargetModes.map targetTriple =
      (s_DefaultModes.take 46).map virtualModeTriple ++
        (if ctx.preferredMode.Width ≠ 0 then [virtualModeTriple ctx.preferredMode] else []) := by
  unfold IddSampleMonitorQueryModes
  rw [queryModes_loop]
  dsimp only
  by_cases hw : ctx.preferredMode.Width = 0
  · have hb : ¬ (ctx.preferredMode.Width != 0) = true := by simp [hw]
    rw [if_neg hb, if_neg (by simpa using hw), targetTriple_catalog, List.append_nil]
  · have hb : (ctx.preferredMode.Width != 0) = true := by simpa using hw
    rw [if_pos hb, if_pos hw, List.map_append, targetTriple_catalog]
    rfl

theorem IddSampleMonitorQueryModes2_triples (ctx : IndirectMonitorContext) (cap : Nat) :
    (IddSampleMonitorQueryModes2 ctx cap).TargetModes.map targetTriple2 =
      (s_DefaultModes.take 46).map virtualModeTriple ++
        (if ctx.preferredMode.Width ≠ 0 then [virtualModeTriple ctx.preferredMode] else []) := by
  unfold IddSampleMonitorQueryModes2
  rw [queryModes2_loop]
  dsimp only
  by_cases hw : ctx.preferredMode.Width = 0
  · have hb : ¬ (ctx.preferredMode.Width != 0) = true := by simp [hw]
    rw [if_neg hb, if_neg (by simpa using hw), targetTriple2_catalog, List.append_nil]
  · have hb : (ctx.preferredMode.Width != 0) = true := by simpa using hw
    rw [if_pos hb, if_pos hw, List.map_append, targetTriple2_catalog]
    rfl

/-- Membership of the last catalog entry in a list of 46 catalog entries followed by
an optional preferred mode. -/
theorem last_entry_mem_iff (m : VirtualMonitorMode) :
    (3840, 2160, 240) ∈ (s_DefaultModes.take 46).map virtualModeTriple ++
        (if m.Width ≠ 0 then [virtualModeTriple m] else []) ↔
      virtualModeTriple m = (3840, 2160, 240) := by
  rw [List.mem_append]
  constructor
  · intro h
    rcases h with h | h
    · exact absurd h last_entry_not_in_first_46
    · split_ifs at h with hw
      · exact (List.mem_singleton.mp h).symm
      · exact absurd h (List.not_mem_nil _)
  · intro h
    have hw : m.Width ≠ 0 := by
      have : m.Width = 3840 := congrArg Prod.fst h
      omega
    right
    rw [if_pos hw, h]
    exact List.mem_singleton.mpr rfl

theorem length_queryModes_le (l : List (Nat × Nat × Nat)) (m : VirtualMonitorMode)
    (h : l = (s_DefaultModes.take 46).map virtualModeTriple ++
      (if m.Width ≠ 0 then [virtualModeTriple m] else [])) : l.length < 4294967296 := by
  rw [h, List.length_append, List.length_map, List.length_take, s_DefaultModes_length]
  split_ifs <;> simp

/-- Whenever the basic parser writes modes, the last catalog entry is among them. -/
theorem parser_reports_last_entry (s : DriverState) (DataSize : Nat) (pData : List Nat)
    (n : Nat)
    (h : (IddSampleParseMonitorDescription s DataSize pData n).PreferredMonitorModeIdx ≠ none) :
    (3840, 2160, 240) ∈
      (IddSampleParseMonitorDescription s DataSize pData n).pMonitorModes.map modeTriple := by
  have hcat : (3840, 2160, 240) ∈ (s_DefaultModes.map (fun m =>
      CreateIddCxMonitorMode m.Width m.Height m.VSync .MONITORDESCRIPTOR)).map modeTriple := by
    rw [modeTriple_catalog]
    exact last_entry_in_catalog
  unfold IddSampleParseMonitorDescription at h ⊢
  by_cases hd : (DataSize != sizeof_edid_base) = true
  · rw [if_pos hd] at h
    exact absurd rfl h
  · rw [if_neg hd] at h ⊢
    dsimp only at h ⊢
    generalize parseLoop pData s.monitorCtxList (s_DefaultModes.length, none) = r at h ⊢
    obtain ⟨count, p⟩ := r
    dsimp only at h ⊢
    by_cases hcap : n < count
    · rw [if_pos hcap] at h
      exact absurd rfl h
    · rw [if_neg hcap]
      cases p with
      | none => exact hcat
      | some preferred =>
        dsimp only
        by_cases hw : (preferred.Width != 0) = true
        · rw [if_pos hw]
          dsimp only
          rw [List.map_append]
          exact List.mem_append_left _ hcat
        · rw [if_neg hw]
          exact hcat

/-- C23: for every monitor, the vector of target modes that `IddSampleMonitorQueryModes`
(and `IddSampleMonitorQueryModes2`) builds holds the first 46 entries of the 47-entry
catalog in catalog order, followed by the monitor's preferred mode when its width is
not zero; the reported count is the length of that vector, and the vector is copied
to the caller when the capacity suffices.  The last catalog entry, 3840x2160 at
240 Hz, which the parser reports among the monitor modes, is in the vector only
when it is the monitor's preferred mode. -/
theorem query_modes_skip_last_entry (ctx : IndirectMonitorContext) (cap : Nat) :
    ((IddSampleMonitorQueryModes ctx cap).TargetModes.map targetTriple =
        (s_DefaultModes.take 46).map virtualModeTriple ++
          (if ctx.preferredMode.Width ≠ 0 then [virtualModeTriple ctx.preferredMode] else []) ∧
      (IddSampleMonitorQueryModes2 ctx cap).TargetModes.map targetTriple2 =
        (s_DefaultModes.take 46).map virtualModeTriple ++
          (if ctx.preferredMode.Width ≠ 0 then [virtualModeTriple ctx.preferredMode] else [])) ∧
    ((IddSampleMonitorQueryModes ctx cap).TargetModeBufferOutputCount =
        (IddSampleMonitorQueryModes ctx cap).TargetModes.length ∧
      (IddSampleMonitorQueryModes2 ctx cap).TargetModeBufferOutputCount =
        (IddSampleMonitorQueryModes2 ctx cap).TargetModes.length) ∧
    (((IddSampleMonitorQueryModes ctx cap).TargetModes.length ≤ cap →
        (IddSampleMonitorQueryModes ctx cap).pTargetModes =
          (IddSampleMonitorQueryModes ctx cap).TargetModes) ∧
      ((IddSampleMonitorQueryModes2 ctx cap).TargetModes.length ≤ cap →
        (IddSampleMonitorQueryModes2 ctx cap).pTargetModes =
          (IddSampleMonitorQueryModes2 ctx cap).TargetModes)) ∧
    (s_DefaultModes.length = 47 ∧
      (s_DefaultModes.map virtualModeTriple)[46]? = some (3840, 2160, 240)) ∧
    (((3840, 2160, 240) ∈ (IddSampleMonitorQueryModes ctx cap).TargetModes.map targetTriple ↔
        virtualModeTriple ctx.preferredMode = (3840, 2160, 240)) ∧
      ((3840, 2160, 240) ∈ (IddSampleMonitorQueryModes2 ctx cap).TargetModes.map targetTriple2 ↔
        virtualModeTriple ctx.preferredMode = (3840, 2160, 240))) ∧
    (∀ (s : DriverState) (DataSize : Nat) (pData : List Nat) (n : Nat),
      (IddSampleParseMonitorDescription s DataSize pData n).PreferredMonitorModeIdx ≠ none →
      (3840, 2160, 240) ∈
        (IddSampleParseMonitorDescription s DataSize pData n).pMonitorModes.map modeTriple) := by
  have t1 := IddSampleMonitorQueryModes_triples ctx cap
  have t2 := IddSampleMonitorQueryModes2_triples ctx cap
  have l1 : (IddSampleMonitorQueryModes ctx cap).TargetModes.length < 4294967296 := by
    have := length_queryModes_le _ ctx.preferredMode t1
    rwa [List.length_map] at this
  have l2 : (IddSampleMonitorQueryModes2 ctx cap).TargetModes.length < 4294967296 := by
    have := length_queryModes_le _ ctx.preferredMode t2
    rwa [List.length_map] at this
  refine ⟨⟨t1, t2⟩, ⟨?_, ?_⟩, ⟨?_, ?_⟩, ⟨s_DefaultModes_length, rfl⟩, ⟨?_, ?_⟩,
    parser_reports_last_entry⟩
  · exact Nat.mod_eq_of_lt l1
  · exact Nat.mod_eq_of_lt l2
  · intro hc
    exact if_pos hc
  · intro hc
    exact if_pos hc
  · rw [t1]
    exact last_entry_mem_iff _
  · rw [t2]
    exact last_entry_mem_iff _

set_option maxRecDepth 100000 in
theorem query_modes_skip_last_entry_witness :
    (IddSampleMonitorQueryModes (sampleContext edid_base 1920) 47).pTargetModes =
      (IddSampleMonitorQueryModes (sampleContext edid_base 1920) 47).TargetModes :=
  (query_modes_skip_last_entry (sampleContext edid_base 1920) 47).2.2.1.1 (by decide)

/-! ## Two monitors with one identity -/

theorem removeLoop_eq_find (g : GUID) (l : List IndirectMonitorContext) :
    removeLoop g l =
      (l.find? (fun x => decide (x.monitorGuid = g))).map
        (fun x => (x.connectorId, l.eraseP (fun x => decide (x.monitorGuid = g)))) := by
  induction l with
  | nil => rfl
  | cons a t ih =>
    by_cases ha : a.monitorGuid = g
    · simp [removeLoop, ha, List.find?_cons, List.eraseP_cons]
    · simp only [removeLoop, if_neg ha, ih, List.find?_cons, List.eraseP_cons,
        decide_eq_false ha]
      cases t.find? (fun x => decide (x.monitorGuid = g)) <;> simp

theorem CreateMonitor_Status (s : DriverState) (edidData : EdidPtr) (containerId : GUID)
    (preferredMode : VirtualMonitorMode) (h : HostOutcome) :
    (CreateMonitor s edidData containerId preferredMode h).Status =
      if NT_SUCCESS h.monitorCreateStatus then h.monitorArrivalStatus
      else h.monitorCreateStatus := by
  by_cases hcr : NT_SUCCESS h.monitorCreateStatus = true
  · rw [CreateMonitor_success _ _ _ _ _ hcr, if_pos hcr]
  · have hcf : NT_SUCCESS h.monitorCreateStatus = false := by simpa using hcr
    rw [CreateMonitor_failure _ _ _ _ _ hcf, if_neg hcr]

/-- The status of an AddDisplay request does not depend on the monitor table: it is
the same in any two states that have a free slot. -/
theorem IddSampleIoDeviceControl_add_status_table (sz : IoctlSizes) (s t : DriverState)
    (req : IoRequest) (h : HostOutcome) (params : VIRTUAL_DISPLAY_PARAMS)
    (hc : req.IoControlCode = .IOCTL_ADD_VIRTUAL_DISPLAY params)
    (hs : s.freeConnectorSlots ≠ []) (ht : t.freeConnectorSlots ≠ []) :
    (IddSampleIoDeviceControl sz s req h).2.Status =
      (IddSampleIoDeviceControl sz t req h).2.Status := by
  have c1 : ¬ s.freeConnectorSlots.isEmpty = true := by
    rw [List.isEmpty_iff]; exact hs
  have c2 : ¬ t.freeConnectorSlots.isEmpty = true := by
    rw [List.isEmpty_iff]; exact ht
  unfold IddSampleIoDeviceControl
  rw [hc]
  dsimp only
  rw [if_neg c1, if_neg c2]
  by_cases h2 : (decide (req.InputBufferLength < sz.sizeof_VIRTUAL_DISPLAY_PARAMS) ||
      decide (req.OutputBufferLength < sz.sizeof_VIRTUAL_DISPLAY_OUTPUT)) = true
  · rw [if_pos h2, if_pos h2]
  rw [if_neg h2, if_neg h2]
  by_cases h3 : (!NT_SUCCESS h.inputBufferStatus) = true
  · rw [if_pos h3, if_pos h3]
  rw [if_neg h3, if_neg h3]
  by_cases h4 : (!NT_SUCCESS h.outputBufferStatus) = true
  · rw [if_pos h4, if_pos h4]
  rw [if_neg h4, if_neg h4]
  by_cases h5 : (decide (params.Width > 0) && decide (params.Height > 0) &&
      decide (params.RefreshRate > 0)) = true
  · rw [if_pos h5, if_pos h5]
    dsimp only
    rw [CreateMonitor_Status, CreateMonitor_Status]
    split_ifs <;> rfl
  · rw [if_neg h5, if_neg h5]

/-- C24: AddDisplay does not look at the identities already registered (the status
of the second request is the same in any state with a free slot).  In every state
that satisfies the slot invariant of the registry, two successful AddDisplay
requests with the same identity `g` append two monitors with identity `g` that hold
the two front slots of the pool, which differ; a following RemoveDisplay(`g`)
completes with success and erases exactly one table entry, the first one with
identity `g` in table order (the earliest added), pushes that monitor's slot and no
other onto the pool, and leaves the monitor added last registered. -/
theorem duplicate_identity_add_remove (sz : IoctlSizes) (s : DriverState)
    (req1 req2 reqR : IoRequest) (h1 h2 hR : HostOutcome) (p1 p2 : VIRTUAL_DISPLAY_PARAMS)
    (g : GUID)
    (hinv : (s.freeConnectorSlots ++ heldSlots s).Perm (List.range IDD_SAMPLE_MONITOR_COUNT))
    (hc1 : req1.IoControlCode = .IOCTL_ADD_VIRTUAL_DISPLAY p1) (hg1 : p1.MonitorGuid = g)
    (hc2 : req2.IoControlCode = .IOCTL_ADD_VIRTUAL_DISPLAY p2) (hg2 : p2.MonitorGuid = g)
    (hs1 : NT_SUCCESS (IddSampleIoDeviceControl sz s req1 h1).2.Status = true)
    (hs2 : NT_SUCCESS (IddSampleIoDeviceControl sz
      (IddSampleIoDeviceControl sz s req1 h1).1 req2 h2).2.Status = true)
    (hcR : reqR.IoControlCode = .IOCTL_REMOVE_VIRTUAL_DISPLAY { MonitorGuid := g })
    (hlen : sz.sizeof_VIRTUAL_DISPLAY_REMOVE_PARAMS ≤ reqR.InputBufferLength)
    (hin : NT_SUCCESS hR.inputBufferStatus = true) :
    (∀ t : DriverState, t.freeConnectorSlots ≠ [] →
      (IddSampleIoDeviceControl sz t req2 h2).2.Status =
        (IddSampleIoDeviceControl sz (IddSampleIoDeviceControl sz s req1 h1).1 req2 h2).2.Status) ∧
    ∃ k1 k2 rest c1 c2 removed,
      s.freeConnectorSlots = k1 :: k2 :: rest ∧ k1 ≠ k2 ∧
      (IddSampleIoDeviceControl sz (IddSampleIoDeviceControl sz s req1 h1).1 req2 h2).1.monitorCtxList
        = s.monitorCtxList ++ [c1, c2] ∧
      (IddSampleIoDeviceControl sz
        (IddSampleIoDeviceControl sz s req1 h1).1 req2 h2).1.freeConnectorSlots = rest ∧
      c1.monitorGuid = g ∧ c2.monitorGuid = g ∧ c1.connectorId = k1 ∧ c2.connectorId = k2 ∧
      (s.monitorCtxList ++ [c1]).find? (fun x => decide (x.monitorGuid = g)) = some removed ∧
      (IddSampleIoDeviceControl sz
        (IddSampleIoDeviceControl sz (IddSampleIoDeviceControl sz s req1 h1).1 req2 h2).1
        reqR hR).2.Status = STATUS_SUCCESS ∧
      (IddSampleIoDeviceControl sz
        (IddSampleIoDeviceControl sz (IddSampleIoDeviceControl sz s req1 h1).1 req2 h2).1
        reqR hR).1.monitorCtxList =
          (s.monitorCtxList ++ [c1]).eraseP (fun x => decide (x.monitorGuid = g)) ++ [c2] ∧
      (IddSampleIoDeviceControl sz
        (IddSampleIoDeviceControl sz (IddSampleIoDeviceControl sz s req1 h1).1 req2 h2).1
        reqR hR).1.monitorCtxList.length + 1 = (s.monitorCtxList ++ [c1, c2]).length ∧
      (IddSampleIoDeviceControl sz
        (IddSampleIoDeviceControl sz (IddSampleIoDeviceControl sz s req1 h1).1 req2 h2).1
        reqR hR).1.freeConnectorSlots = rest ++ [removed.connectorId] ∧
      c2 ∈ (IddSampleIoDeviceControl sz
        (IddSampleIoDeviceControl sz (IddSampleIoDeviceControl sz s req1 h1).1 req2 h2).1
        reqR hR).1.monitorCtxList := by
  obtain ⟨k1, r1, c1, hk1, hst1, hcg1, hid1⟩ :=
    IddSampleIoDeviceControl_add_success sz s req1 h1 p1 hc1 hs1
  rw [hst1] at hs2 ⊢
  obtain ⟨k2, rest, c2, hk2, hst2, hcg2, hid2⟩ :=
    IddSampleIoDeviceControl_add_success sz _ req2 h2 p2 hc2 hs2
  dsimp only at hk2 hst2
  subst hk2
  have hnd : (k1 :: k2 :: rest ++ heldSlots s).Nodup := by
    have := hinv.nodup_iff.mpr (List.nodup_range _)
    rwa [hk1] at this
  have hne : k1 ≠ k2 := by
    intro he
    rw [he] at hnd
    have := (List.nodup_cons.mp hnd).1
    exact this (List.mem_cons_self _ _)
  have hlt1 : k1 < 10 := List.mem_range.mp (hinv.subset (by simp [hk1]))
  have hlt2 : k2 < 10 := List.mem_range.mp (hinv.subset (by simp [hk1]))
  have hi1 : c1.connectorId = k1 := by rw [hid1]; omega
  have hi2 : c2.connectorId = k2 := by rw [hid2]; omega
  have hp : (fun x : IndirectMonitorContext => decide (x.monitorGuid = g)) c1 = true := by
    simp [hcg1, hg1]
  obtain ⟨removed, hrem⟩ : ∃ removed,
      (s.monitorCtxList ++ [c1]).find? (fun x => decide (x.monitorGuid = g)) = some removed := by
    cases hf : (s.monitorCtxList ++ [c1]).find? (fun x => decide (x.monitorGuid = g)) with
    | some r => exact ⟨r, rfl⟩
    | none =>
      have := List.find?_eq_none.mp hf c1 (by simp)
      exact absurd hp this
  have hmem : ∃ a ∈ s.monitorCtxList ++ [c1],
      (fun x : IndirectMonitorContext => decide (x.monitorGuid = g)) a = true :=
    ⟨c1, by simp, hp⟩
  have hfind : ((s.monitorCtxList ++ [c1]) ++ [c2]).find?
      (fun x => decide (x.monitorGuid = g)) = some removed := by
    rw [List.find?_append, hrem]
    rfl
  have herase : ((s.monitorCtxList ++ [c1]) ++ [c2]).eraseP
      (fun x => decide (x.monitorGuid = g)) =
      (s.monitorCtxList ++ [c1]).eraseP (fun x => decide (x.monitorGuid = g)) ++ [c2] := by
    obtain ⟨a, ha, hpa⟩ := hmem
    exact @List.eraseP_append_left _ (fun x => decide (x.monitorGuid = g)) a hpa _ [c2] ha
  have hlenE : ((s.monitorCtxList ++ [c1]).eraseP
      (fun x => decide (x.monitorGuid = g))).length + 1 = (s.monitorCtxList ++ [c1]).length := by
    obtain ⟨a, ha, hpa⟩ := hmem
    have := @List.length_eraseP_of_mem _ _ a (fun x => decide (x.monitorGuid = g)) ha hpa
    have hpos : 0 < (s.monitorCtxList ++ [c1]).length := List.length_pos_of_mem ha
    omega
  have key : IddSampleIoDeviceControl sz
      (IddSampleIoDeviceControl sz
        { freeConnectorSlots := k2 :: rest, monitorCtxList := s.monitorCtxList ++ [c1],
          watchdogTimeout := s.watchdogTimeout, watchdogCountdown := s.watchdogTimeout }
        req2 h2).1 reqR hR =
      ({ freeConnectorSlots := rest ++ [removed.connectorId]
         monitorCtxList :=
           (s.monitorCtxList ++ [c1]).eraseP (fun x => decide (x.monitorGuid = g)) ++ [c2]
         watchdogTimeout := s.watchdogTimeout
         watchdogCountdown := s.watchdogTimeout }, completeWith STATUS_SUCCESS) := by
    rw [hst2, IddSampleIoDeviceControl_remove sz _ reqR hR _ hcR hlen hin]
    dsimp only
    rw [removeLoop_eq_find, hfind, herase]
    rfl
  refine ⟨?_, k1, k2, rest, c1, c2, removed, hk1, hne, ?_, ?_, hcg1.trans hg1,
    hcg2.trans hg2, hi1, hi2, hrem, ?_, ?_, ?_, ?_, ?_⟩
  · intro t ht
    exact IddSampleIoDeviceControl_add_status_table sz t _ req2 h2 p2 hc2 ht
      (List.cons_ne_nil _ _)
  · rw [hst2]
    simp
  · rw [hst2]
  · rw [key]
    rfl
  · rw [key]
  · rw [key]
    simp only [List.length_append, List.length_cons, List.length_nil] at hlenE ⊢
    omega
  · rw [key]
  · rw [key]
    simp

theorem duplicate_identity_add_remove_witness :
    (IddSampleIoDeviceControl sampleSizes (initialState none) (sampleAdd (sampleGuid 7) 1920)
      (sampleHost 2)).2.Status =
    (IddSampleIoDeviceControl sampleSizes
      (IddSampleIoDeviceControl sampleSizes (initialState none) (sampleAdd (sampleGuid 7) 1920)
        (sampleHost 1)).1
      (sampleAdd (sampleGuid 7) 1920) (sampleHost 2)).2.Status :=
  (duplicate_identity_add_remove sampleSizes (initialState none)
    (sampleAdd (sampleGuid 7) 1920) (sampleAdd (sampleGuid 7) 1920) (sampleRemove (sampleGuid 7))
    (sampleHost 1) (sampleHost 2) (sampleHost 0) _ _ (sampleGuid 7)
    (slots_perm_initialState none) rfl rfl rfl rfl (by decide) (by decide) rfl (by decide)
    (by decide)).1 (initialState none) (by decide)

end SudoVDA
